import Mathlib

/-!
Shallow embedding of the nutune sync core: the manifest store
(`src/device/manifest.rs`), the reconciliation functions
(`src/browse/interactive.rs`), and the sync orchestration engine
(`src/sync/engine.rs`, `src/sync/pipeline.rs`).

Conventions of the embedding:
* Rust `String` is Lean `String`; byte buffers (`Bytes`, `Vec<u8>`) are
  `List Nat`; `chrono::DateTime<Utc>` timestamps are `Nat` (an abstract
  instant, threaded explicitly where the code calls `Utc::now()`).
* `anyhow::Result<T>` is `Except String T` (the error carries the message).
* The external collaborators (subsonic client, device filesystem) are an
  explicit environment `Env` of pure fallible functions; every network call
  and filesystem write performed by the engine is additionally recorded in
  observable traces (`NetOp`, `WriteOp`) so that "no downloads / no writes"
  is a provable statement.
* `serde_json` text printing/parsing is modelled at the JSON-value level
  (`Json`): the derive-generated field structure is embedded, the
  text codec of the external library is treated as an exact codec.
-/

namespace Nutune

/-- Byte buffers (`bytes::Bytes`, `Vec<u8>`). -/
abbrev Bytes := List Nat

/-! ## Subsonic data model (`src/subsonic/models.rs`) -/

/-- `Song` from `src/subsonic/models.rs`. -/
structure Song where
  id : String
  title : String
  album : Option String
  album_id : Option String
  artist : Option String
  artist_id : Option String
  track : Option Nat
  disc_number : Option Nat
  duration : Option Nat
  size : Option Nat
  suffix : Option String
  content_type : Option String
  cover_art : Option String
  path : Option String
deriving DecidableEq

/-- `Album` from `src/subsonic/models.rs`. -/
structure Album where
  id : String
  name : String
  artist : Option String
  artist_id : Option String
  cover_art : Option String
  song_count : Option Nat
  duration : Option Nat
  year : Option Nat
  genre : Option String
deriving DecidableEq

/-- `AlbumWithSongs` from `src/subsonic/models.rs` (getAlbum response). -/
structure AlbumWithSongs where
  id : String
  name : String
  artist : Option String
  artist_id : Option String
  cover_art : Option String
  song_count : Option Nat
  duration : Option Nat
  year : Option Nat
  genre : Option String
  song : List Song
deriving DecidableEq

/-- `Playlist` from `src/subsonic/models.rs`. -/
structure Playlist where
  id : String
  name : String
  song_count : Option Nat
  duration : Option Nat
  owner : Option String
  public : Option Bool
  cover_art : Option String
deriving DecidableEq

/-- `PlaylistWithSongs` from `src/subsonic/models.rs` (getPlaylist response). -/
structure PlaylistWithSongs where
  id : String
  name : String
  song_count : Option Nat
  duration : Option Nat
  owner : Option String
  public : Option Bool
  cover_art : Option String
  songs : List Song
deriving DecidableEq

/-- `SyncSelection` from `src/subsonic/models.rs`. -/
structure SyncSelection where
  albums : List Album := []
  playlists : List Playlist := []
deriving DecidableEq

/-- `SyncSelection::is_empty`. -/
def SyncSelection.is_empty (s : SyncSelection) : Bool :=
  s.albums.isEmpty && s.playlists.isEmpty

/-! ## Manifest store (`src/device/manifest.rs`) -/

/-- `SyncedAlbum` record from `src/device/manifest.rs`. -/
structure SyncedAlbum where
  id : String
  artist : String
  album : String
  track_count : Nat
  synced_at : Nat
deriving DecidableEq

/-- `SyncedPlaylist` record from `src/device/manifest.rs`. -/
structure SyncedPlaylist where
  id : String
  name : String
  track_count : Nat
  synced_at : Nat
deriving DecidableEq

/-- `SyncManifest` from `src/device/manifest.rs`. -/
structure SyncManifest where
  version : Nat
  last_sync : Nat
  subsonic_url : String
  synced_albums : List SyncedAlbum
  synced_playlists : List SyncedPlaylist
deriving DecidableEq

/-- `SyncManifest::new` (`manifest.rs` lines 56-64); `now` models `Utc::now()`. -/
def SyncManifest.new (subsonic_url : String) (now : Nat) : SyncManifest :=
  { version := 1
    last_sync := now
    subsonic_url := subsonic_url
    synced_albums := []
    synced_playlists := [] }

/-- `SyncManifest::is_album_synced` (`manifest.rs` lines 105-107). -/
def SyncManifest.is_album_synced (m : SyncManifest) (album_id : String) : Bool :=
  m.synced_albums.any (fun a => a.id == album_id)

/-- `SyncManifest::is_playlist_synced` (`manifest.rs` lines 110-112). -/
def SyncManifest.is_playlist_synced (m : SyncManifest) (playlist_id : String) : Bool :=
  m.synced_playlists.any (fun p => p.id == playlist_id)

/-- `SyncManifest::add_album` (`manifest.rs` lines 115-120): retain the
records whose id differs, push the new record, bump `last_sync`. -/
def SyncManifest.add_album (m : SyncManifest) (album : SyncedAlbum) (now : Nat) : SyncManifest :=
  { m with
    synced_albums := m.synced_albums.filter (fun a => a.id != album.id) ++ [album]
    last_sync := now }

/-- `SyncManifest::add_playlist` (`manifest.rs` lines 123-128). -/
def SyncManifest.add_playlist (m : SyncManifest) (playlist : SyncedPlaylist) (now : Nat) : SyncManifest :=
  { m with
    synced_playlists := m.synced_playlists.filter (fun p => p.id != playlist.id) ++ [playlist]
    last_sync := now }

/-- Modelled from the spec: `remove_album(id)` is called by
`SyncEngine::delete_deselected` (`engine.rs` line 254) but its definition is
absent from the sources; spec section 4.1 gives its contract: drop the album
record with the given id, no-op if absent. -/
def SyncManifest.remove_album (m : SyncManifest) (album_id : String) : SyncManifest :=
  { m with synced_albums := m.synced_albums.filter (fun a => a.id != album_id) }

/-- Modelled from the spec: `remove_playlist(id)` is called by
`SyncEngine::delete_deselected` (`engine.rs` line 275) but its definition is
absent from the sources; spec section 4.1: drop the playlist record with the
given id, no-op if absent. -/
def SyncManifest.remove_playlist (m : SyncManifest) (playlist_id : String) : SyncManifest :=
  { m with synced_playlists := m.synced_playlists.filter (fun p => p.id != playlist_id) }

/-- The ids recorded in the manifest's synced album collection. -/
def SyncManifest.albumIds (m : SyncManifest) : List String :=
  m.synced_albums.map (fun a => a.id)

/-- The ids recorded in the manifest's synced playlist collection. -/
def SyncManifest.playlistIds (m : SyncManifest) : List String :=
  m.synced_playlists.map (fun p => p.id)

/-! ## JSON layer (`serde_json` values; `Serialize`/`Deserialize` derives) -/

/-- JSON values, the codomain of `serde_json::to_string_pretty` and domain of
`serde_json::from_str` (text printing/parsing of the external library is
treated as an exact codec, so a file's content is modelled as a `Json`
value). -/
inductive Json where
  | str (s : String)
  | num (n : Nat)
  | arr (xs : List Json)
  | obj (fields : List (String × Json))

/-- Field access on a JSON object, as serde's derived deserializer resolves
struct fields by name. -/
def Json.getField (j : Json) (key : String) : Option Json :=
  match j with
  | .obj fields => fields.lookup key
  | _ => none

/-- Extract a JSON string. -/
def Json.asStr (j : Json) : Option String :=
  match j with
  | .str s => some s
  | _ => none

/-- Extract a JSON number. -/
def Json.asNum (j : Json) : Option Nat :=
  match j with
  | .num n => some n
  | _ => none

/-- Extract a JSON array. -/
def Json.asArr (j : Json) : Option (List Json) :=
  match j with
  | .arr xs => some xs
  | _ => none

/-- Derived `Serialize` for `SyncedAlbum`. -/
def SyncedAlbum.toJson (a : SyncedAlbum) : Json :=
  .obj [("id", .str a.id), ("artist", .str a.artist), ("album", .str a.album),
        ("track_count", .num a.track_count), ("synced_at", .num a.synced_at)]

/-- Derived `Deserialize` for `SyncedAlbum`. -/
def SyncedAlbum.fromJson (j : Json) : Option SyncedAlbum := do
  let id ← (← j.getField "id").asStr
  let artist ← (← j.getField "artist").asStr
  let album ← (← j.getField "album").asStr
  let track_count ← (← j.getField "track_count").asNum
  let synced_at ← (← j.getField "synced_at").asNum
  pure { id := id, artist := artist, album := album,
         track_count := track_count, synced_at := synced_at }

/-- Derived `Serialize` for `SyncedPlaylist`. -/
def SyncedPlaylist.toJson (p : SyncedPlaylist) : Json :=
  .obj [("id", .str p.id), ("name", .str p.name),
        ("track_count", .num p.track_count), ("synced_at", .num p.synced_at)]

/-- Derived `Deserialize` for `SyncedPlaylist`. -/
def SyncedPlaylist.fromJson (j : Json) : Option SyncedPlaylist := do
  let id ← (← j.getField "id").asStr
  let name ← (← j.getField "name").asStr
  let track_count ← (← j.getField "track_count").asNum
  let synced_at ← (← j.getField "synced_at").asNum
  pure { id := id, name := name, track_count := track_count, synced_at := synced_at }

/-- Derived `Serialize` for `SyncManifest`. -/
def SyncManifest.toJson (m : SyncManifest) : Json :=
  .obj [("version", .num m.version), ("last_sync", .num m.last_sync),
        ("subsonic_url", .str m.subsonic_url),
        ("synced_albums", .arr (m.synced_albums.map SyncedAlbum.toJson)),
        ("synced_playlists", .arr (m.synced_playlists.map SyncedPlaylist.toJson))]

/-- Traverse a list of decoders, failing if any element fails (serde's
`Vec<T>` deserialization). -/
def decodeList {α : Type} (f : Json → Option α) : List Json → Option (List α)
  | [] => some []
  | j :: rest => do
    let x ← f j
    let xs ← decodeList f rest
    pure (x :: xs)

/-- Derived `Deserialize` for `SyncManifest`. -/
def SyncManifest.fromJson (j : Json) : Option SyncManifest := do
  let version ← (← j.getField "version").asNum
  let last_sync ← (← j.getField "last_sync").asNum
  let subsonic_url ← (← j.getField "subsonic_url").asStr
  let albumsJson ← (← j.getField "synced_albums").asArr
  let synced_albums ← decodeList SyncedAlbum.fromJson albumsJson
  let playlistsJson ← (← j.getField "synced_playlists").asArr
  let synced_playlists ← decodeList SyncedPlaylist.fromJson playlistsJson
  pure { version := version, last_sync := last_sync, subsonic_url := subsonic_url,
         synced_albums := synced_albums, synced_playlists := synced_playlists }

/-! ## Manifest load/save (`manifest.rs` lines 67-102) -/

/-- Errors surfaced by the manifest store (`anyhow` contexts in
`manifest.rs`): a present-but-unparsable manifest file, or a failed write. -/
inductive ManifestError where
  | corruptManifest
  | writeFailed
deriving DecidableEq

/-- `SyncManifest::load` (`manifest.rs` lines 67-88). The volume root's
manifest file is `none` when absent, `some content` when present; a present
file that does not parse is an error, never an empty manifest. -/
def SyncManifest.load (file : Option Json) : Except ManifestError (Option SyncManifest) :=
  match file with
  | none => .ok none
  | some content =>
    match SyncManifest.fromJson content with
    | some m => .ok (some m)
    | none => .error .corruptManifest

/-- `SyncManifest::save` (`manifest.rs` lines 91-102): serialize and
overwrite the manifest file; `writeOk` models whether `std::fs::write`
succeeds. Returns the new file state at the volume root. -/
def SyncManifest.save (m : SyncManifest) (writeOk : Bool) (file : Option Json) :
    Except ManifestError (Option Json) :=
  if writeOk then .ok (some m.toJson) else .error .writeFailed

/-- The manifest-loading part of `SyncEngine::new` (`engine.rs` lines
137-163): `SyncManifest::load(&device_path)?.unwrap_or_else(|| SyncManifest::new("unknown"))`.
A load error propagates and engine construction fails. -/
def SyncEngine.newManifest (file : Option Json) (now : Nat) :
    Except ManifestError SyncManifest :=
  match SyncManifest.load file with
  | .error e => .error e
  | .ok mo => .ok (mo.getD (SyncManifest.new "unknown" now))

/-! ## Reconciliation (`src/browse/interactive.rs`) -/

/-- `DeletionSelection` from `src/sync/engine.rs` lines 102-108. -/
structure DeletionSelection where
  albums : List (String × String × String) := []
  playlists : List (String × String) := []
deriving DecidableEq

/-- `DeletionSelection::is_empty` (`engine.rs` lines 110-114). -/
def DeletionSelection.is_empty (d : DeletionSelection) : Bool :=
  d.albums.isEmpty && d.playlists.isEmpty

/-- The reconciliation-relevant fields of `BrowserState`
(`interactive.rs` lines 62-103). The `HashSet` fields are embedded as the
lists of their elements in iteration order; `album_cache` (a `HashMap`) as
an association list; `active_device` together with the result of
`SyncManifest::load` on its mount point as `active_manifest`. -/
structure BrowserState where
  selected_albums : List String
  selected_playlists : List String
  synced_album_ids : List String
  synced_playlist_ids : List String
  album_cache : List (String × Album)
  playlists : List Playlist
  active_manifest : Option SyncManifest

/-- `build_selection` (`interactive.rs` lines 1073-1095): the selected
albums (resp. playlists) whose id is not already synced, resolved through
`album_cache` (resp. `state.playlists`). -/
def build_selection (state : BrowserState) : SyncSelection :=
  { albums := state.selected_albums.filterMap (fun album_id =>
      if state.synced_album_ids.contains album_id then none
      else state.album_cache.lookup album_id)
    playlists := state.selected_playlists.filterMap (fun playlist_id =>
      if state.synced_playlist_ids.contains playlist_id then none
      else state.playlists.find? (fun p => p.id == playlist_id)) }

/-- `calculate_deletions` (`interactive.rs` lines 1098-1131): synced ids no
longer selected, with artist/album (resp. name) recovered from the loaded
manifest record; empty when no device manifest is loadable. -/
def calculate_deletions (state : BrowserState) : DeletionSelection :=
  match state.active_manifest with
  | none => {}
  | some manifest =>
    { albums := state.synced_album_ids.filterMap (fun album_id =>
        if state.selected_albums.contains album_id then none
        else (manifest.synced_albums.find? (fun a => a.id == album_id)).map
          (fun synced => (album_id, synced.artist, synced.album)))
      playlists := state.synced_playlist_ids.filterMap (fun playlist_id =>
        if state.selected_playlists.contains playlist_id then none
        else (manifest.synced_playlists.find? (fun p => p.id == playlist_id)).map
          (fun synced => (playlist_id, synced.name))) }

/-! ## Sync engine (`src/sync/engine.rs`, `src/sync/pipeline.rs`) -/

/-- Progress updates (`SyncProgress` enum, `engine.rs` lines 19-99). -/
inductive SyncProgress where
  | Started (total_albums total_playlists : Nat)
  | AlbumStarted (artist album : String) (track_count : Nat)
  | TrackCompleted (track_num total_tracks : Nat)
  | AlbumCompleted (artist album : String)
  | AlbumSkipped (artist album : String)
  | PlaylistStarted (name : String) (track_count : Nat)
  | PlaylistCompleted (name : String)
  | PlaylistSkipped (name : String)
  | Error (message : String)
  | Complete (albums_synced playlists_synced tracks_downloaded bytes_downloaded
      albums_deleted playlists_deleted : Nat)
  | DeletionStarted (albums_to_delete playlists_to_delete : Nat)
  | AlbumDeleted (artist album : String)
  | AlbumDeleteFailed (artist album : String) (error : String)
  | PlaylistDeleted (name : String)
  | PlaylistDeleteFailed (name : String) (error : String)
deriving DecidableEq

/-- Network calls the engine issues against the subsonic client. -/
inductive NetOp where
  | getAlbum (id : String)
  | getPlaylist (id : String)
  | download (song_id : String)
  | getCoverArt (id : String)
deriving DecidableEq

/-- Filesystem writes the engine issues against `DeviceStorage`
(`src/device/storage.rs`). -/
inductive WriteOp where
  | albumTrack (artist album : String) (track_number : Nat) (title extension : String) (data : Bytes)
  | coverArt (artist album : String) (data : Bytes)
  | playlistTrack (playlist artist title extension : String) (data : Bytes)
  | m3u (playlist : String) (tracks : List String)
deriving DecidableEq

/-- The external collaborators consumed by the engine: the subsonic client
(`src/subsonic/client.rs`), the cover-art utilities
(`src/utils/cover_art.rs`) and the device storage (`src/device/storage.rs`),
each as a pure fallible function. -/
structure Env where
  getAlbum : String → Except String AlbumWithSongs
  getPlaylist : String → Except String PlaylistWithSongs
  download : String → Except String Bytes
  getCoverArt : String → Except String Bytes
  processCoverArt : Bytes → Except String Bytes
  embedCoverArt : Bytes → Bytes → String → Except String Bytes
  writeAlbumTrack : String → String → Nat → String → String → Bytes → Except String Unit
  writeCoverArt : String → String → Bytes → Except String Unit
  writePlaylistTrack : String → String → String → String → Bytes → Except String String
  writeM3u : String → List String → Except String Unit
  deleteAlbum : String → String → Except String Unit
  deletePlaylist : String → Except String Unit
  initStorage : Except String Unit
  saveManifest : SyncManifest → Except String Unit

/-- Whether the download of a song succeeds in the given environment. -/
def dlOk (env : Env) (s : Song) : Bool :=
  match env.download s.id with
  | .ok _ => true
  | .error _ => false

/-- `DownloadedTrack` from `src/sync/pipeline.rs` lines 38-44. -/
structure DownloadedTrack where
  song : Song
  audio_data : Bytes
  artist : String
  album : String
  track_number : Nat

/-- `ProcessedTrack` from `src/sync/pipeline.rs` lines 48-54. -/
structure ProcessedTrack where
  song : Song
  final_audio_data : Bytes
  artist : String
  album : String
  track_number : Nat

/-- The album download stage (`engine.rs` lines 438-477): one download task
per song, tasks whose download fails are dropped with a logged warning.
Returns the network trace and the surviving `(song, data)` pairs. -/
def downloadAlbumTracks (env : Env) (songs : List Song) :
    List NetOp × List (Song × Bytes) :=
  (songs.map (fun s => NetOp.download s.id),
   songs.filterMap (fun s =>
     match env.download s.id with
     | .ok data => some (s, data)
     | .error _ => none))

/-- `process_tracks_parallel` (`pipeline.rs` lines 168-236): embed the
shared processed cover into each track; on embedding failure fall back to
the unprocessed audio bytes. -/
def process_tracks (env : Env) (tracks : List DownloadedTrack)
    (processed_cover : Option Bytes) : List ProcessedTrack :=
  tracks.map (fun track =>
    let extension := track.song.suffix.getD "mp3"
    let final_data :=
      match processed_cover with
      | some cover =>
        match env.embedCoverArt track.audio_data cover extension with
        | .ok data => data
        | .error _ => track.audio_data
      | none => track.audio_data
    { song := track.song, final_audio_data := final_data, artist := track.artist,
      album := track.album, track_number := track.track_number })

/-- The album write stage (`engine.rs` lines 508-525): sequential writes,
each via `?`, so the first failing write aborts the unit; returns the write
trace of the completed prefix and the accumulated byte total. -/
def writeAlbumTracks (env : Env) : List ProcessedTrack → List WriteOp × Except String Nat
  | [] => ([], .ok 0)
  | track :: rest =>
    let extension := track.song.suffix.getD "mp3"
    match env.writeAlbumTrack track.artist track.album track.track_number
        track.song.title extension track.final_audio_data with
    | .error e => ([], .error e)
    | .ok _ =>
      let tail := writeAlbumTracks env rest
      (WriteOp.albumTrack track.artist track.album track.track_number
         track.song.title extension track.final_audio_data :: tail.1,
       match tail.2 with
       | .ok b => .ok (track.final_audio_data.length + b)
       | .error e => .error e)

/-- Outcome of one unit (`sync_album_with_progress` /
`sync_playlist_with_progress`): the Rust return value plus the resulting
manifest state and the observable event/network/write traces. -/
structure UnitOutcome where
  result : Except String (Nat × Nat)
  manifest : SyncManifest
  events : List SyncProgress
  net : List NetOp
  writes : List WriteOp

/-- The cover download-and-process step of one album unit (`engine.rs`
lines 403-422): failures degrade to no cover. -/
def albumCover (env : Env) (album : Album) : Option Bytes :=
  match album.cover_art with
  | some cover_id =>
    match env.getCoverArt cover_id with
    | .ok data =>
      match env.processCoverArt data with
      | .ok processed => some processed
      | .error _ => none
    | .error _ => none
  | none => none

/-- Surviving downloads of one album unit, packaged as `DownloadedTrack`
(`engine.rs` lines 487-497). -/
def albumDownloaded (env : Env) (album : Album) (details : AlbumWithSongs) :
    List DownloadedTrack :=
  (downloadAlbumTracks env details.song).2.map (fun sd =>
    { song := sd.1, audio_data := sd.2, artist := album.artist.getD "Unknown Artist",
      album := album.name, track_number := sd.1.track.getD 1 })

/-- `sync_album_with_progress` (`engine.rs` lines 387-547): manifest hit
short-circuits; cover download/processing failures degrade to no cover;
`get_album` failure fails the unit; per-track download failures drop the
track; writes are sequential and a write failure fails the unit before the
manifest is touched; on success the manifest record is upserted with the
number of processed tracks. -/
def sync_album_with_progress (env : Env) (manifest : SyncManifest) (album : Album)
    (now : Nat) : UnitOutcome :=
  let artist := album.artist.getD "Unknown Artist"
  if manifest.is_album_synced album.id then
    { result := .ok (0, 0), manifest := manifest, events := [], net := [], writes := [] }
  else
    let processed_cover : Option Bytes := albumCover env album
    let coverNet : List NetOp :=
      match album.cover_art with
      | some cover_id => [NetOp.getCoverArt cover_id]
      | none => []
    match env.getAlbum album.id with
    | .error e =>
      { result := .error e, manifest := manifest, events := [],
        net := coverNet ++ [NetOp.getAlbum album.id], writes := [] }
    | .ok album_details =>
      let track_count := album_details.song.length
      let dl := downloadAlbumTracks env album_details.song
      let headEvents := [SyncProgress.AlbumStarted artist album.name track_count,
                         SyncProgress.TrackCompleted dl.2.length track_count]
      let unitNet := coverNet ++ [NetOp.getAlbum album.id] ++ dl.1
      let downloaded_tracks := albumDownloaded env album album_details
      let processed_tracks := process_tracks env downloaded_tracks processed_cover
      let written := writeAlbumTracks env processed_tracks
      match written.2 with
      | .error e =>
        { result := .error e, manifest := manifest, events := headEvents,
          net := unitNet, writes := written.1 }
      | .ok total_bytes =>
        let coverWrites :=
          match processed_cover with
          | some cover =>
            match env.writeCoverArt artist album.name cover with
            | .ok _ => [WriteOp.coverArt artist album.name cover]
            | .error _ => []
          | none => []
        { result := .ok (processed_tracks.length, total_bytes)
          manifest := manifest.add_album
            { id := album.id, artist := artist, album := album.name,
              track_count := processed_tracks.length, synced_at := now } now
          events := headEvents
          net := unitNet
          writes := written.1 ++ coverWrites }

/-- One playlist track download (`PlaylistDownload` local struct,
`engine.rs` lines 598-602). -/
structure PlaylistDownload where
  song : Song
  artist : String
  data : Bytes
  cover_id : Option String
  cover_data : Option Bytes

/-- The playlist download stage (`engine.rs` lines 576-649): per song,
download the track (failures drop the song); on success additionally fetch
its cover art when present (cover failures degrade to no cover). -/
def downloadPlaylistTracks (env : Env) (songs : List Song) :
    List NetOp × List PlaylistDownload :=
  (songs.flatMap (fun s =>
     NetOp.download s.id ::
       (match env.download s.id, s.cover_art with
        | .ok _, some cover_id => [NetOp.getCoverArt cover_id]
        | _, _ => [])),
   songs.filterMap (fun s =>
     match env.download s.id with
     | .ok data =>
       some { song := s, artist := s.artist.getD "Unknown Artist", data := data,
              cover_id := s.cover_art,
              cover_data := s.cover_art.bind (fun cover_id =>
                match env.getCoverArt cover_id with
                | .ok cdata => some cdata
                | .error _ => none) }
     | .error _ => none))

/-- The playlist cover cache (`engine.rs` lines 659-677): process each
distinct cover id once; a failed processing is not cached (and not
retried for the same pair later unless another track carries the id). -/
def buildCoverCache (env : Env) (downloads : List PlaylistDownload) :
    List (String × Bytes) :=
  downloads.foldl (fun cache dl =>
    match dl.cover_id, dl.cover_data with
    | some cover_id, some cover_data =>
      if (cache.lookup cover_id).isSome then cache
      else
        match env.processCoverArt cover_data with
        | .ok processed => cache ++ [(cover_id, processed)]
        | .error _ => cache
    | _, _ => cache) []

/-- The playlist embed stage (`engine.rs` lines 679-734): embed the cached
cover when available, falling back to the raw bytes on failure. -/
def processPlaylistTracks (env : Env) (cache : List (String × Bytes))
    (downloads : List PlaylistDownload) : List (Song × String × String × Bytes) :=
  downloads.map (fun dl =>
    let processed_cover := dl.cover_id.bind (fun cover_id => cache.lookup cover_id)
    let extension := dl.song.suffix.getD "mp3"
    let final_data :=
      match processed_cover with
      | some cover =>
        match env.embedCoverArt dl.data cover extension with
        | .ok data => data
        | .error _ => dl.data
      | none => dl.data
    (dl.song, dl.artist, extension, final_data))

/-- The playlist write stage (`engine.rs` lines 736-755): sequential writes
via `?`, collecting the returned filenames in write order. -/
def writePlaylistTracks (env : Env) (playlist_name : String) :
    List (Song × String × String × Bytes) → List WriteOp × Except String (List String × Nat)
  | [] => ([], .ok ([], 0))
  | t :: rest =>
    match env.writePlaylistTrack playlist_name t.2.1 t.1.title t.2.2.1 t.2.2.2 with
    | .error e => ([], .error e)
    | .ok filename =>
      let tail := writePlaylistTracks env playlist_name rest
      (WriteOp.playlistTrack playlist_name t.2.1 t.1.title t.2.2.1 t.2.2.2 :: tail.1,
       match tail.2 with
       | .ok fb => .ok (filename :: fb.1, t.2.2.2.length + fb.2)
       | .error e => .error e)

/-- `sync_playlist_with_progress` (`engine.rs` lines 550-771). -/
def sync_playlist_with_progress (env : Env) (manifest : SyncManifest)
    (playlist : Playlist) (now : Nat) : UnitOutcome :=
  if manifest.is_playlist_synced playlist.id then
    { result := .ok (0, 0), manifest := manifest, events := [], net := [], writes := [] }
  else
    match env.getPlaylist playlist.id with
    | .error e =>
      { result := .error e, manifest := manifest, events := [],
        net := [NetOp.getPlaylist playlist.id], writes := [] }
    | .ok playlist_details =>
      let track_count := playlist_details.songs.length
      let dl := downloadPlaylistTracks env playlist_details.songs
      let headEvents := [SyncProgress.PlaylistStarted playlist.name track_count,
                         SyncProgress.TrackCompleted dl.2.length track_count]
      let unitNet := NetOp.getPlaylist playlist.id :: dl.1
      let cache := buildCoverCache env dl.2
      let processed_tracks := processPlaylistTracks env cache dl.2
      let written := writePlaylistTracks env playlist.name processed_tracks
      match written.2 with
      | .error e =>
        { result := .error e, manifest := manifest, events := headEvents,
          net := unitNet, writes := written.1 }
      | .ok fb =>
        match env.writeM3u playlist.name fb.1 with
        | .error e =>
          { result := .error e, manifest := manifest, events := headEvents,
            net := unitNet, writes := written.1 }
        | .ok _ =>
          { result := .ok (fb.1.length, fb.2)
            manifest := manifest.add_playlist
              { id := playlist.id, name := playlist.name,
                track_count := fb.1.length, synced_at := now } now
            events := headEvents
            net := unitNet
            writes := written.1 ++ [WriteOp.m3u playlist.name fb.1] }

/-! ## Deletion phase (`engine.rs` lines 232-291) -/

/-- Accumulator threaded through the deletion loops. -/
structure DelAcc where
  deleted : Nat
  manifest : SyncManifest
  events : List SyncProgress

/-- The album deletion loop (`engine.rs` lines 251-269): each entry is
attempted independently; success removes the manifest record and emits
`AlbumDeleted`, failure emits `AlbumDeleteFailed` with the error and the
loop continues. -/
def deleteAlbumsGo (env : Env) : List (String × String × String) → DelAcc → DelAcc
  | [], acc => acc
  | entry :: rest, acc =>
    deleteAlbumsGo env rest
      (match env.deleteAlbum entry.2.1 entry.2.2 with
       | .ok _ =>
         { deleted := acc.deleted + 1
           manifest := acc.manifest.remove_album entry.1
           events := acc.events ++ [SyncProgress.AlbumDeleted entry.2.1 entry.2.2] }
       | .error e =>
         { acc with
           events := acc.events ++ [SyncProgress.AlbumDeleteFailed entry.2.1 entry.2.2 e] })

/-- The playlist deletion loop (`engine.rs` lines 272-288). -/
def deletePlaylistsGo (env : Env) : List (String × String) → DelAcc → DelAcc
  | [], acc => acc
  | entry :: rest, acc =>
    deletePlaylistsGo env rest
      (match env.deletePlaylist entry.2 with
       | .ok _ =>
         { deleted := acc.deleted + 1
           manifest := acc.manifest.remove_playlist entry.1
           events := acc.events ++ [SyncProgress.PlaylistDeleted entry.2] }
       | .error e =>
         { acc with
           events := acc.events ++ [SyncProgress.PlaylistDeleteFailed entry.2 e] })

/-- Outcome of `delete_deselected`: the `(albums_deleted, playlists_deleted)`
return value plus manifest state and emitted events. -/
structure DeleteOutcome where
  albums_deleted : Nat
  playlists_deleted : Nat
  manifest : SyncManifest
  events : List SyncProgress

/-- `delete_deselected` (`engine.rs` lines 232-291). -/
def delete_deselected (env : Env) (manifest : SyncManifest)
    (deletions : DeletionSelection) : DeleteOutcome :=
  if deletions.is_empty then
    { albums_deleted := 0, playlists_deleted := 0, manifest := manifest, events := [] }
  else
    let startEvents := [SyncProgress.DeletionStarted deletions.albums.length
      deletions.playlists.length]
    let afterAlbums := deleteAlbumsGo env deletions.albums
      { deleted := 0, manifest := manifest, events := startEvents }
    let afterPlaylists := deletePlaylistsGo env deletions.playlists
      { deleted := 0, manifest := afterAlbums.manifest, events := afterAlbums.events }
    { albums_deleted := afterAlbums.deleted
      playlists_deleted := afterPlaylists.deleted
      manifest := afterPlaylists.manifest
      events := afterPlaylists.events }

/-! ## Orchestrator (`sync_with_progress`, `engine.rs` lines 294-384) -/

/-- `SyncResult` (`engine.rs` lines 117-123). -/
structure SyncResult where
  albums_synced : Nat := 0
  playlists_synced : Nat := 0
  tracks_downloaded : Nat := 0
  bytes_downloaded : Nat := 0
deriving DecidableEq

/-- Accumulator threaded through the orchestrator's unit loops. -/
structure RunAcc where
  result : SyncResult
  manifest : SyncManifest
  events : List SyncProgress
  net : List NetOp
  writes : List WriteOp

/-- One album iteration of the orchestrator loop (`engine.rs` lines
315-342): success with tracks counts the album and emits `AlbumCompleted`;
success with zero tracks emits `AlbumSkipped`; failure emits `Error` and
the loop continues. -/
def albumStep (env : Env) (now : Nat) (acc : RunAcc) (album : Album) : RunAcc :=
  let artist := album.artist.getD "Unknown Artist"
  let o := sync_album_with_progress env acc.manifest album now
  match o.result with
  | .ok tb =>
    if tb.1 > 0 then
      { result := { albums_synced := acc.result.albums_synced + 1
                    playlists_synced := acc.result.playlists_synced
                    tracks_downloaded := acc.result.tracks_downloaded + tb.1
                    bytes_downloaded := acc.result.bytes_downloaded + tb.2 }
        manifest := o.manifest
        events := acc.events ++ o.events ++ [SyncProgress.AlbumCompleted artist album.name]
        net := acc.net ++ o.net
        writes := acc.writes ++ o.writes }
    else
      { result := acc.result, manifest := o.manifest
        events := acc.events ++ o.events ++ [SyncProgress.AlbumSkipped artist album.name]
        net := acc.net ++ o.net
        writes := acc.writes ++ o.writes }
  | .error e =>
    { result := acc.result, manifest := o.manifest
      events := acc.events ++ o.events ++
        [SyncProgress.Error ("Album " ++ artist ++ " - " ++ album.name ++ ": " ++ e)]
      net := acc.net ++ o.net
      writes := acc.writes ++ o.writes }

/-- The album loop of `sync_with_progress`. -/
def syncAlbumsGo (env : Env) (now : Nat) : List Album → RunAcc → RunAcc
  | [], acc => acc
  | album :: rest, acc => syncAlbumsGo env now rest (albumStep env now acc album)

/-- One playlist iteration of the orchestrator loop (`engine.rs` lines
345-368). -/
def playlistStep (env : Env) (now : Nat) (acc : RunAcc) (playlist : Playlist) : RunAcc :=
  let o := sync_playlist_with_progress env acc.manifest playlist now
  match o.result with
  | .ok tb =>
    if tb.1 > 0 then
      { result := { albums_synced := acc.result.albums_synced
                    playlists_synced := acc.result.playlists_synced + 1
                    tracks_downloaded := acc.result.tracks_downloaded + tb.1
                    bytes_downloaded := acc.result.bytes_downloaded + tb.2 }
        manifest := o.manifest
        events := acc.events ++ o.events ++ [SyncProgress.PlaylistCompleted playlist.name]
        net := acc.net ++ o.net
        writes := acc.writes ++ o.writes }
    else
      { result := acc.result, manifest := o.manifest
        events := acc.events ++ o.events ++ [SyncProgress.PlaylistSkipped playlist.name]
        net := acc.net ++ o.net
        writes := acc.writes ++ o.writes }
  | .error e =>
    { result := acc.result, manifest := o.manifest
      events := acc.events ++ o.events ++
        [SyncProgress.Error ("Playlist " ++ playlist.name ++ ": " ++ e)]
      net := acc.net ++ o.net
      writes := acc.writes ++ o.writes }

/-- The playlist loop of `sync_with_progress`. -/
def syncPlaylistsGo (env : Env) (now : Nat) : List Playlist → RunAcc → RunAcc
  | [], acc => acc
  | playlist :: rest, acc => syncPlaylistsGo env now rest (playlistStep env now acc playlist)

/-- Outcome of a whole `sync_with_progress` invocation. -/
structure RunOutcome where
  result : Except String SyncResult
  manifest : SyncManifest
  events : List SyncProgress
  net : List NetOp
  writes : List WriteOp

/-- `sync_with_progress` (`engine.rs` lines 294-384): init storage, deletion
phase, `Started` event, album loop, playlist loop, manifest save, `Complete`
event. -/
def sync_with_progress (env : Env) (manifest : SyncManifest)
    (selection : SyncSelection) (deletions : DeletionSelection) (now : Nat) : RunOutcome :=
  match env.initStorage with
  | .error e =>
    { result := .error e, manifest := manifest, events := [], net := [], writes := [] }
  | .ok _ =>
    let del := delete_deselected env manifest deletions
    let acc0 : RunAcc :=
      { result := {}, manifest := del.manifest
        events := del.events ++
          [SyncProgress.Started selection.albums.length selection.playlists.length]
        net := [], writes := [] }
    let acc1 := syncAlbumsGo env now selection.albums acc0
    let acc2 := syncPlaylistsGo env now selection.playlists acc1
    match env.saveManifest acc2.manifest with
    | .error e =>
      { result := .error e, manifest := acc2.manifest, events := acc2.events,
        net := acc2.net, writes := acc2.writes }
    | .ok _ =>
      { result := .ok acc2.result
        manifest := acc2.manifest
        events := acc2.events ++
          [SyncProgress.Complete acc2.result.albums_synced acc2.result.playlists_synced
             acc2.result.tracks_downloaded acc2.result.bytes_downloaded
             del.albums_deleted del.playlists_deleted]
        net := acc2.net
        writes := acc2.writes }

/-! ## Observation helpers -/

/-- Whether an event is the orchestrator's per-unit `Error` event. -/
def isErrorEvent : SyncProgress → Bool
  | .Error _ => true
  | _ => false

/-- Number of `Error` events in a trace. -/
def errCount (events : List SyncProgress) : Nat :=
  events.countP isErrorEvent

/-- Whether an event reports the outcome of one album deletion attempt. -/
def isAlbumDeleteAttempt : SyncProgress → Bool
  | .AlbumDeleted _ _ => true
  | .AlbumDeleteFailed _ _ _ => true
  | _ => false

/-- Whether an event reports the outcome of one playlist deletion attempt. -/
def isPlaylistDeleteAttempt : SyncProgress → Bool
  | .PlaylistDeleted _ => true
  | .PlaylistDeleteFailed _ _ => true
  | _ => false

/-- Whether a write is an album track write. -/
def isAlbumTrackWrite : WriteOp → Bool
  | .albumTrack _ _ _ _ _ _ => true
  | _ => false

/-- Whether a write is a playlist track write. -/
def isPlaylistTrackWrite : WriteOp → Bool
  | .playlistTrack _ _ _ _ _ => true
  | _ => false

/-- The title carried by an album track write. -/
def albumTrackTitle : WriteOp → Option String
  | .albumTrack _ _ _ title _ _ => some title
  | _ => none

/-! ## Concrete fixtures used to instantiate the theorems -/

/-- A song with the given id and title and defaulted metadata. -/
def mkSong (id title : String) : Song :=
  { id := id, title := title, album := none, album_id := none, artist := none,
    artist_id := none, track := some 1, disc_number := none, duration := none,
    size := none, suffix := some "mp3", content_type := none, cover_art := none,
    path := none }

/-- An album with the given id, name and artist and defaulted metadata. -/
def mkAlbum (id name : String) (artist : Option String) : Album :=
  { id := id, name := name, artist := artist, artist_id := none, cover_art := none,
    song_count := none, duration := none, year := none, genre := none }

/-- A playlist with the given id and name and defaulted metadata. -/
def mkPlaylist (id name : String) : Playlist :=
  { id := id, name := name, song_count := none, duration := none, owner := none,
    public := none, cover_art := none }

/-- An album-details response carrying the given songs. -/
def mkDetails (id name : String) (artist : Option String) (songs : List Song) :
    AlbumWithSongs :=
  { id := id, name := name, artist := artist, artist_id := none, cover_art := none,
    song_count := some songs.length, duration := none, year := none, genre := none,
    song := songs }

/-- A playlist-details response carrying the given songs. -/
def mkPlaylistDetails (id name : String) (songs : List Song) : PlaylistWithSongs :=
  { id := id, name := name, song_count := some songs.length, duration := none,
    owner := none, public := none, cover_art := none, songs := songs }

/-- A base environment where storage succeeds, catalog lookups fail and
downloads return a one-byte body. -/
def envBase : Env :=
  { getAlbum := fun _ => .error "unknown album"
    getPlaylist := fun _ => .error "unknown playlist"
    download := fun _ => .ok [0]
    getCoverArt := fun _ => .error "no cover"
    processCoverArt := fun data => .ok data
    embedCoverArt := fun audio _ _ => .ok audio
    writeAlbumTrack := fun _ _ _ _ _ _ => .ok ()
    writeCoverArt := fun _ _ _ => .ok ()
    writePlaylistTrack := fun _ artist title ext _ => .ok (artist ++ " - " ++ title ++ "." ++ ext)
    writeM3u := fun _ _ => .ok ()
    deleteAlbum := fun _ _ => .ok ()
    deletePlaylist := fun _ => .ok ()
    initStorage := .ok ()
    saveManifest := fun _ => .ok () }

/-- An empty manifest fixture. -/
def manifest0 : SyncManifest := SyncManifest.new "http://srv" 0

/-- Album fixture for the idempotence witness. -/
def albumW : Album := mkAlbum "al1" "X" (some "Art")

/-- Playlist fixture for the idempotence witness. -/
def playlistW : Playlist := mkPlaylist "pl1" "P"

/-- Selection fixture for the idempotence witness. -/
def selW : SyncSelection := { albums := [albumW], playlists := [playlistW] }

/-- Environment fixture for the idempotence witness: one album with one
song, one playlist with one song, all operations succeed. -/
def env2 : Env :=
  { envBase with
    getAlbum := fun id =>
      if id == "al1" then .ok (mkDetails "al1" "X" (some "Art") [mkSong "s1" "T1"])
      else .error "unknown album"
    getPlaylist := fun id =>
      if id == "pl1" then .ok (mkPlaylistDetails "pl1" "P" [mkSong "s2" "T2"])
      else .error "unknown playlist" }

/-- Ten track ids for the partial-failure witness. -/
def ids10 : List String :=
  ["t01", "t02", "t03", "t04", "t05", "t06", "t07", "t08", "t09", "t10"]

/-- Ten songs for the partial-failure witness. -/
def songs10 : List Song := ids10.map (fun i => mkSong i ("T" ++ i))

/-- Album fixture for the partial-failure witness. -/
def album3 : Album := mkAlbum "al3" "Y" (some "Art")

/-- Environment fixture for the partial-failure witness: a ten-track album
whose fifth track fails to download; every write succeeds. -/
def env3 : Env :=
  { envBase with
    getAlbum := fun id =>
      if id == "al3" then .ok (mkDetails "al3" "Y" (some "Art") songs10)
      else .error "unknown album"
    download := fun id => if id == "t05" then .error "net down" else .ok [7] }

/-- Manifest fixture with two synced albums, for the deletion-isolation
witness. -/
def manifest6 : SyncManifest :=
  { version := 1, last_sync := 0, subsonic_url := "http://srv"
    synced_albums := [{ id := "idA", artist := "ArtA", album := "A", track_count := 5, synced_at := 0 },
                      { id := "idB", artist := "ArtB", album := "B", track_count := 4, synced_at := 0 }]
    synced_playlists := [] }

/-- Environment fixture where deleting artist `ArtA`'s directory fails. -/
def env6 : Env :=
  { envBase with
    deleteAlbum := fun artist _ =>
      if artist == "ArtA" then .error "permission denied" else .ok () }

/-- Deletion set fixture: albums A (will fail) and B (will succeed). -/
def deletions6 : DeletionSelection :=
  { albums := [("idA", "ArtA", "A"), ("idB", "ArtB", "B")], playlists := [] }

/-- Environment fixture where the catalog metadata fetch fails. -/
def env7 : Env := { envBase with getAlbum := fun _ => .error "catalog unreachable" }

/-- Environment fixture where the catalog works but every album track write
fails (out of space). -/
def envWF : Env := { env2 with writeAlbumTrack := fun _ _ _ _ _ _ => .error "disk full" }

/-- Album fixture for the per-unit atomicity witness. -/
def album7 : Album := mkAlbum "al7" "Z" none

/-- Album fixture for the zero-track witness. -/
def album9 : Album := mkAlbum "al9" "W" (some "Art")

/-- Environment fixture where every track download fails. -/
def env9 : Env :=
  { envBase with
    getAlbum := fun id =>
      if id == "al9" then
        .ok (mkDetails "al9" "W" (some "Art") [mkSong "t91" "T91", mkSong "t92" "T92"])
      else .error "unknown album"
    download := fun _ => .error "net down" }

/-- Orchestrator accumulator fixture for the zero-track witness. -/
def acc9 : RunAcc :=
  { result := {}, manifest := manifest0, events := [], net := [], writes := [] }

/-- Manifest fixture for the reconciliation and round-trip witnesses. -/
def manifest1 : SyncManifest :=
  { version := 1, last_sync := 3, subsonic_url := "http://srv"
    synced_albums := [{ id := "a1", artist := "Ar", album := "A1", track_count := 1, synced_at := 1 },
                      { id := "a3", artist := "Ar", album := "A3", track_count := 2, synced_at := 2 }]
    synced_playlists := [{ id := "p2", name := "P2", track_count := 3, synced_at := 2 }] }

/-- Browser-state fixture for the reconciliation witnesses. -/
def state1 : BrowserState :=
  { selected_albums := ["a1", "a2"]
    selected_playlists := ["p1"]
    synced_album_ids := ["a1", "a3"]
    synced_playlist_ids := ["p2"]
    album_cache := [("a1", mkAlbum "a1" "A1" (some "Ar")), ("a2", mkAlbum "a2" "A2" (some "Ar"))]
    playlists := [mkPlaylist "p1" "P1"]
    active_manifest := some manifest1 }

/-- Album records sharing an id, for the upsert-uniqueness witness. -/
def recA : SyncedAlbum := { id := "id1", artist := "Ar", album := "Al", track_count := 3, synced_at := 0 }

/-- The replacing record with the same id. -/
def recA' : SyncedAlbum := { id := "id1", artist := "Ar2", album := "Al2", track_count := 5, synced_at := 1 }

/-- A JSON value that does not parse as a manifest. -/
def jBad : Json := .num 0

/-- The bytes a successful download yields (`[]` when the download fails;
only meaningful for songs with `dlOk`). -/
def dlData (env : Env) (s : Song) : Bytes :=
  match env.download s.id with
  | .ok data => data
  | .error _ => []

/-- The write operation recorded for one processed album track. -/
def writeOpOf (t : ProcessedTrack) : WriteOp :=
  .albumTrack t.artist t.album t.track_number t.song.title (t.song.suffix.getD "mp3")
    t.final_audio_data

/-- Total byte count of a list of processed tracks, as accumulated by the
album write stage. -/
def albumBytes (ts : List ProcessedTrack) : Nat :=
  ts.foldr (fun t b => t.final_audio_data.length + b) 0

/-- The event one album deletion attempt emits (`engine.rs` lines 251-268). -/
def albumDelEvent (env : Env) (entry : String × String × String) : SyncProgress :=
  match env.deleteAlbum entry.2.1 entry.2.2 with
  | .ok _ => .AlbumDeleted entry.2.1 entry.2.2
  | .error e => .AlbumDeleteFailed entry.2.1 entry.2.2 e

/-- The event one playlist deletion attempt emits (`engine.rs` lines 272-287). -/
def playlistDelEvent (env : Env) (entry : String × String) : SyncProgress :=
  match env.deletePlaylist entry.2 with
  | .ok _ => .PlaylistDeleted entry.2
  | .error e => .PlaylistDeleteFailed entry.2 e

/-- The manifest effect of one album deletion attempt. -/
def albumDelStep (env : Env) (m : SyncManifest) (entry : String × String × String) : SyncManifest :=
  match env.deleteAlbum entry.2.1 entry.2.2 with
  | .ok _ => m.remove_album entry.1
  | .error _ => m

/-- The manifest effect of one playlist deletion attempt. -/
def playlistDelStep (env : Env) (m : SyncManifest) (entry : String × String) : SyncManifest :=
  match env.deletePlaylist entry.2 with
  | .ok _ => m.remove_playlist entry.1
  | .error _ => m

/-! ## Helper lemmas: JSON round trip -/

theorem decodeList_map {α : Type} (f : Json → Option α) (g : α → Json)
    (h : ∀ x, f (g x) = some x) (l : List α) : decodeList f (l.map g) = some l := by
  induction l with
  | nil => rfl
  | cons x xs ih => simp [decodeList, h, ih]

theorem albumRecord_fromJson_toJson (a : SyncedAlbum) :
    SyncedAlbum.fromJson a.toJson = some a := rfl

theorem playlistRecord_fromJson_toJson (p : SyncedPlaylist) :
    SyncedPlaylist.fromJson p.toJson = some p := rfl

theorem manifest_fromJson_toJson (m : SyncManifest) :
    SyncManifest.fromJson m.toJson = some m := by
  simp [SyncManifest.fromJson, SyncManifest.toJson, Json.getField, Json.asNum,
    Json.asStr, Json.asArr, List.lookup,
    decodeList_map SyncedAlbum.fromJson SyncedAlbum.toJson albumRecord_fromJson_toJson,
    decodeList_map SyncedPlaylist.fromJson SyncedPlaylist.toJson playlistRecord_fromJson_toJson]

/-! ## C4: manifest upsert uniqueness -/

/-- C4: for every manifest and album records `a`, `a'` with the same id,
after `add_album a` then `add_album a'` exactly one record with that id
remains and it equals `a'`; and every upsert (album or playlist) preserves
the at-most-one-record-per-id invariant. -/
theorem upsert_uniqueness (m : SyncManifest) (a a' : SyncedAlbum) (n1 n2 : Nat)
    (hid : a.id = a'.id) :
    ((m.add_album a n1).add_album a' n2).synced_albums.filter (fun r => r.id == a'.id) = [a'] ∧
    (∀ (mm : SyncManifest) (r : SyncedAlbum) (n : Nat) (i : String),
      mm.synced_albums.countP (fun x => x.id == i) ≤ 1 →
      ((mm.add_album r n).synced_albums.countP (fun x => x.id == i)) ≤ 1) ∧
    (∀ (mm : SyncManifest) (r : SyncedPlaylist) (n : Nat) (i : String),
      mm.synced_playlists.countP (fun x => x.id == i) ≤ 1 →
      ((mm.add_playlist r n).synced_playlists.countP (fun x => x.id == i)) ≤ 1) := by
  refine ⟨?_, ?_, ?_⟩
  · simp only [SyncManifest.add_album, List.filter_append, List.filter_filter]
    have h1 : List.filter
        (fun x : SyncedAlbum => x.id == a'.id && (x.id != a'.id && x.id != a.id))
        m.synced_albums = [] := by
      apply List.filter_eq_nil_iff.mpr
      intro x _
      cases hx : x.id == a'.id <;> simp [bne, hx]
    have h2 : List.filter (fun x : SyncedAlbum => x.id == a'.id && x.id != a'.id) [a] = [] := by
      simp [bne]
    have h3 : List.filter (fun r : SyncedAlbum => r.id == a'.id) [a'] = [a'] := by simp
    rw [h1, h2, h3]
    simp
  · intro mm r n i h
    simp only [SyncManifest.add_album, List.countP_append]
    by_cases hi : r.id = i
    · have hz : (mm.synced_albums.filter (fun x => x.id != r.id)).countP
          (fun x => x.id == i) = 0 := by
        apply List.countP_eq_zero.mpr
        intro x hx
        have := (List.mem_filter.mp hx).2
        simp only [bne_iff_ne, ne_eq] at this
        simp [hi ▸ this]
      simp [hz, hi]
    · have ho : ([r].countP (fun x => x.id == i)) = 0 := by simp [hi]
      have hle : (mm.synced_albums.filter (fun x => x.id != r.id)).countP
          (fun x => x.id == i) ≤ mm.synced_albums.countP (fun x => x.id == i) := by
        simp only [List.countP_filter]
        exact List.countP_mono_left (by intro x _ hx; exact (Bool.and_elim_left hx))
      omega
  · intro mm r n i h
    simp only [SyncManifest.add_playlist, List.countP_append]
    by_cases hi : r.id = i
    · have hz : (mm.synced_playlists.filter (fun x => x.id != r.id)).countP
          (fun x => x.id == i) = 0 := by
        apply List.countP_eq_zero.mpr
        intro x hx
        have := (List.mem_filter.mp hx).2
        simp only [bne_iff_ne, ne_eq] at this
        simp [hi ▸ this]
      simp [hz, hi]
    · have ho : ([r].countP (fun x => x.id == i)) = 0 := by simp [hi]
      have hle : (mm.synced_playlists.filter (fun x => x.id != r.id)).countP
          (fun x => x.id == i) ≤ mm.synced_playlists.countP (fun x => x.id == i) := by
        simp only [List.countP_filter]
        exact List.countP_mono_left (by intro x _ hx; exact (Bool.and_elim_left hx))
      omega

/-- Witness for C4 at concrete inputs. -/
theorem upsert_uniqueness_witness :
    ((manifest0.add_album recA 0).add_album recA' 1).synced_albums.filter
      (fun r => r.id == recA'.id) = [recA'] :=
  (upsert_uniqueness manifest0 recA recA' 0 1 rfl).1

/-! ## C5: manifest load semantics -/

/-- C5: `load` returns `none` on an absent manifest file; on a present but
unparsable file it returns a corrupt-manifest error (never an empty or
default manifest), and engine construction on such a volume fails. -/
theorem manifest_load_semantics (now : Nat) :
    SyncManifest.load none = .ok none ∧
    (∀ j : Json, SyncManifest.fromJson j = none →
      SyncManifest.load (some j) = .error .corruptManifest ∧
      SyncEngine.newManifest (some j) now = .error .corruptManifest) ∧
    (∀ (j : Json) (mo : Option SyncManifest),
      SyncManifest.load (some j) = .ok mo → ∃ m', mo = some m') := by
  refine ⟨rfl, ?_, ?_⟩
  · intro j hj
    constructor
    · simp [SyncManifest.load, hj]
    · simp [SyncEngine.newManifest, SyncManifest.load, hj]
  · intro j mo h
    simp only [SyncManifest.load] at h
    cases hj : SyncManifest.fromJson j with
    | none => rw [hj] at h; cases h
    | some m' => rw [hj] at h; cases h; exact ⟨m', rfl⟩

/-- Witness for C5 at a concrete unparsable file. -/
theorem manifest_load_semantics_witness :
    SyncManifest.load (some jBad) = .error .corruptManifest ∧
    SyncEngine.newManifest (some jBad) 0 = .error .corruptManifest :=
  (manifest_load_semantics 0).2.1 jBad rfl

/-! ## C10: save/load round trip -/

/-- C10: a successful `save` followed by `load` recovers the manifest
unchanged (version, last_sync, subsonic_url and the ordered synced
collections). -/
theorem save_load_round_trip (m : SyncManifest) (writeOk : Bool)
    (file file' : Option Json) (h : m.save writeOk file = .ok file') :
    SyncManifest.load file' = .ok (some m) := by
  cases writeOk with
  | false => simp [SyncManifest.save] at h
  | true =>
    simp only [SyncManifest.save, if_pos] at h
    cases h
    simp [SyncManifest.load, manifest_fromJson_toJson]

/-- Witness for C10 at a concrete manifest. -/
theorem save_load_round_trip_witness :
    SyncManifest.load (some manifest1.toJson) = .ok (some manifest1) :=
  save_load_round_trip manifest1 true none (some manifest1.toJson) rfl

/-! ## C1: reconciliation computes exact set differences -/

/-- C1: under the program's state invariants (the synced-id sets mirror the
manifest ids, the album cache covers the selected ids and keys records by
their own id, and every selected playlist id occurs in the loaded playlist
list), `build_selection` yields exactly the selected-but-not-synced ids,
`calculate_deletions` yields exactly the manifest ids no longer selected,
and the two are disjoint. -/
theorem reconciliation_exact (state : BrowserState) (M : SyncManifest)
    (hm : state.active_manifest = some M)
    (hsa : ∀ id, id ∈ state.synced_album_ids ↔ id ∈ M.albumIds)
    (hsp : ∀ id, id ∈ state.synced_playlist_ids ↔ id ∈ M.playlistIds)
    (hca : ∀ id ∈ state.selected_albums, ∃ alb, state.album_cache.lookup id = some alb)
    (hcw : ∀ id alb, state.album_cache.lookup id = some alb → alb.id = id)
    (hpl : ∀ id ∈ state.selected_playlists, ∃ p ∈ state.playlists, p.id = id) :
    (∀ id, (∃ alb ∈ (build_selection state).albums, alb.id = id) ↔
        (id ∈ state.selected_albums ∧ id ∉ M.albumIds)) ∧
    (∀ id, (∃ p ∈ (build_selection state).playlists, p.id = id) ↔
        (id ∈ state.selected_playlists ∧ id ∉ M.playlistIds)) ∧
    (∀ id, (∃ e ∈ (calculate_deletions state).albums, e.1 = id) ↔
        (id ∈ M.albumIds ∧ id ∉ state.selected_albums)) ∧
    (∀ id, (∃ e ∈ (calculate_deletions state).playlists, e.1 = id) ↔
        (id ∈ M.playlistIds ∧ id ∉ state.selected_playlists)) ∧
    (∀ id, ¬((∃ alb ∈ (build_selection state).albums, alb.id = id) ∧
        (∃ e ∈ (calculate_deletions state).albums, e.1 = id))) ∧
    (∀ id, ¬((∃ p ∈ (build_selection state).playlists, p.id = id) ∧
        (∃ e ∈ (calculate_deletions state).playlists, e.1 = id))) := by
  have hAdd : ∀ id, (∃ alb ∈ (build_selection state).albums, alb.id = id) ↔
      (id ∈ state.selected_albums ∧ id ∉ M.albumIds) := by
    intro id
    constructor
    · rintro ⟨alb, halb, rfl⟩
      simp only [build_selection] at halb
      rw [List.mem_filterMap] at halb
      obtain ⟨sid, hsid, hf⟩ := halb
      by_cases hc : state.synced_album_ids.contains sid
      · rw [if_pos hc] at hf; cases hf
      · rw [if_neg hc] at hf
        have hid := hcw sid alb hf
        subst hid
        refine ⟨hsid, fun hmem => ?_⟩
        exact hc (List.elem_iff.mpr ((hsa alb.id).mpr hmem))
    · rintro ⟨hsel, hnot⟩
      obtain ⟨alb, halb⟩ := hca id hsel
      refine ⟨alb, ?_, hcw id alb halb⟩
      simp only [build_selection]
      rw [List.mem_filterMap]
      refine ⟨id, hsel, ?_⟩
      have hc : ¬(state.synced_album_ids.contains id = true) :=
        fun hcc => hnot ((hsa id).mp (List.elem_iff.mp hcc))
      rw [if_neg hc]
      exact halb
  have hAddP : ∀ id, (∃ p ∈ (build_selection state).playlists, p.id = id) ↔
      (id ∈ state.selected_playlists ∧ id ∉ M.playlistIds) := by
    intro id
    constructor
    · rintro ⟨p, hp, rfl⟩
      simp only [build_selection] at hp
      rw [List.mem_filterMap] at hp
      obtain ⟨sid, hsid, hf⟩ := hp
      by_cases hc : state.synced_playlist_ids.contains sid
      · rw [if_pos hc] at hf; cases hf
      · rw [if_neg hc] at hf
        have hid : p.id = sid := by simpa using List.find?_some hf
        rw [hid]
        refine ⟨hsid, fun hmem => ?_⟩
        exact hc (List.elem_iff.mpr ((hsp sid).mpr hmem))
    · rintro ⟨hsel, hnot⟩
      have hc : ¬(state.synced_playlist_ids.contains id = true) :=
        fun hcc => hnot ((hsp id).mp (List.elem_iff.mp hcc))
      obtain ⟨p, hpmem, hpid⟩ := hpl id hsel
      have hex : (state.playlists.find? (fun q => q.id == id)).isSome := by
        rw [List.find?_isSome]
        exact ⟨p, hpmem, by simp [hpid]⟩
      obtain ⟨q, hq⟩ := Option.isSome_iff_exists.mp hex
      refine ⟨q, ?_, by simpa using List.find?_some hq⟩
      simp only [build_selection]
      rw [List.mem_filterMap]
      refine ⟨id, hsel, ?_⟩
      rw [if_neg hc]
      exact hq
  have hDel : ∀ id, (∃ e ∈ (calculate_deletions state).albums, e.1 = id) ↔
      (id ∈ M.albumIds ∧ id ∉ state.selected_albums) := by
    intro id
    constructor
    · rintro ⟨e, he, hid⟩
      simp only [calculate_deletions, hm] at he
      rw [List.mem_filterMap] at he
      obtain ⟨sid, hsid, hf⟩ := he
      by_cases hc : state.selected_albums.contains sid
      · rw [if_pos hc] at hf; cases hf
      · rw [if_neg hc] at hf
        rw [Option.map_eq_some'] at hf
        obtain ⟨synced, hfind, heq⟩ := hf
        have h1 : sid = id := by rw [← hid, ← heq]
        rw [← h1]
        exact ⟨(hsa sid).mp hsid, fun hmem => hc (List.elem_iff.mpr hmem)⟩
    · rintro ⟨hmem, hnot⟩
      have hsid : id ∈ state.synced_album_ids := (hsa id).mpr hmem
      have hc : ¬(state.selected_albums.contains id = true) :=
        fun hcc => hnot (List.elem_iff.mp hcc)
      have hex : (M.synced_albums.find? (fun a => a.id == id)).isSome := by
        rw [List.find?_isSome]
        simp only [SyncManifest.albumIds, List.mem_map] at hmem
        obtain ⟨a, ha, haid⟩ := hmem
        exact ⟨a, ha, by simp [haid]⟩
      obtain ⟨a, ha⟩ := Option.isSome_iff_exists.mp hex
      refine ⟨(id, a.artist, a.album), ?_, rfl⟩
      simp only [calculate_deletions, hm]
      rw [List.mem_filterMap]
      refine ⟨id, hsid, ?_⟩
      rw [if_neg hc, ha]
      rfl
  have hDelP : ∀ id, (∃ e ∈ (calculate_deletions state).playlists, e.1 = id) ↔
      (id ∈ M.playlistIds ∧ id ∉ state.selected_playlists) := by
    intro id
    constructor
    · rintro ⟨e, he, hid⟩
      simp only [calculate_deletions, hm] at he
      rw [List.mem_filterMap] at he
      obtain ⟨sid, hsid, hf⟩ := he
      by_cases hc : state.selected_playlists.contains sid
      · rw [if_pos hc] at hf; cases hf
      · rw [if_neg hc] at hf
        rw [Option.map_eq_some'] at hf
        obtain ⟨synced, hfind, heq⟩ := hf
        have h1 : sid = id := by rw [← hid, ← heq]
        rw [← h1]
        exact ⟨(hsp sid).mp hsid, fun hmem => hc (List.elem_iff.mpr hmem)⟩
    · rintro ⟨hmem, hnot⟩
      have hsid : id ∈ state.synced_playlist_ids := (hsp id).mpr hmem
      have hc : ¬(state.selected_playlists.contains id = true) :=
        fun hcc => hnot (List.elem_iff.mp hcc)
      have hex : (M.synced_playlists.find? (fun p => p.id == id)).isSome := by
        rw [List.find?_isSome]
        simp only [SyncManifest.playlistIds, List.mem_map] at hmem
        obtain ⟨p, hp, hpid⟩ := hmem
        exact ⟨p, hp, by simp [hpid]⟩
      obtain ⟨p, hp⟩ := Option.isSome_iff_exists.mp hex
      refine ⟨(id, p.name), ?_, rfl⟩
      simp only [calculate_deletions, hm]
      rw [List.mem_filterMap]
      refine ⟨id, hsid, ?_⟩
      rw [if_neg hc, hp]
      rfl
  refine ⟨hAdd, hAddP, hDel, hDelP, ?_, ?_⟩
  · intro id ⟨h1, h2⟩
    exact ((hAdd id).mp h1).2 ((hDel id).mp h2).1
  · intro id ⟨h1, h2⟩
    exact ((hAddP id).mp h1).2 ((hDelP id).mp h2).1

/-- Witness for C1 at a concrete browser state: album `a2` (selected, not
synced) is exactly an addition and album `a3` (synced, deselected) exactly
a deletion. -/
theorem reconciliation_exact_witness :
    (∃ alb ∈ (build_selection state1).albums, alb.id = "a2") ∧
    (∃ e ∈ (calculate_deletions state1).albums, e.1 = "a3") := by
  have h := reconciliation_exact state1 manifest1 rfl
    (by intro id; simp [state1, manifest1, SyncManifest.albumIds])
    (by intro id; simp [state1, manifest1, SyncManifest.playlistIds])
    (by intro id hid
        simp only [state1, List.mem_cons, List.not_mem_nil, or_false] at hid ⊢
        rcases hid with rfl | rfl
        · exact ⟨mkAlbum "a1" "A1" (some "Ar"), rfl⟩
        · exact ⟨mkAlbum "a2" "A2" (some "Ar"), rfl⟩)
    (by intro id alb h
        simp only [state1, List.lookup] at h
        split at h
        · next heq => cases h; exact (eq_of_beq heq).symm
        · split at h
          · next heq => cases h; exact (eq_of_beq heq).symm
          · cases h)
    (by intro id hid
        simp only [state1, List.mem_cons, List.not_mem_nil, or_false] at hid ⊢
        rcases hid with rfl
        exact ⟨mkPlaylist "p1" "P1", rfl, rfl⟩)
  refine ⟨(h.1 "a2").mpr ⟨by simp [state1], by simp [manifest1, SyncManifest.albumIds]⟩,
          (h.2.2.1 "a3").mpr ⟨by simp [manifest1, SyncManifest.albumIds], by simp [state1]⟩⟩

/-! ## C8: toAdd preserves selection order -/

theorem filterMap_map_sublist {α β : Type} (f : α → Option β) (g : β → α)
    (h : ∀ x y, f x = some y → g y = x) :
    ∀ l : List α, ((l.filterMap f).map g).Sublist l := by
  intro l
  induction l with
  | nil => simp
  | cons x xs ih =>
    cases hfx : f x with
    | none =>
      simpa [List.filterMap_cons, hfx] using ih.cons x
    | some y =>
      simpa [List.filterMap_cons, hfx, h x y hfx] using ih.cons₂ x

/-- C8: the album (resp. playlist) ids of the built selection are a sublist
of the selected album (resp. playlist) id sequence — reconciliation filters
the selection without reordering it. -/
theorem toAdd_preserves_selection_order (state : BrowserState)
    (hcw : ∀ id alb, state.album_cache.lookup id = some alb → alb.id = id) :
    (((build_selection state).albums.map (fun a => a.id)).Sublist state.selected_albums) ∧
    (((build_selection state).playlists.map (fun p => p.id)).Sublist state.selected_playlists) := by
  constructor
  · apply filterMap_map_sublist
    intro id alb hf
    by_cases hc : state.synced_album_ids.contains id
    · rw [if_pos hc] at hf; cases hf
    · rw [if_neg hc] at hf
      exact hcw id alb hf
  · apply filterMap_map_sublist
    intro id p hf
    by_cases hc : state.synced_playlist_ids.contains id
    · rw [if_pos hc] at hf; cases hf
    · rw [if_neg hc] at hf
      simpa using List.find?_some hf

/-- Witness for C8 at the concrete browser state. -/
theorem toAdd_preserves_selection_order_witness :
    ((build_selection state1).albums.map (fun a => a.id)).Sublist state1.selected_albums := by
  have h := toAdd_preserves_selection_order state1
    (by intro id alb h
        simp only [state1, List.lookup] at h
        split at h
        · next heq => cases h; exact (eq_of_beq heq).symm
        · split at h
          · next heq => cases h; exact (eq_of_beq heq).symm
          · cases h)
  exact h.1

/-! ## C6: deletion isolation -/

theorem deleteAlbumsGo_events (env : Env) :
    ∀ (entries : List (String × String × String)) (acc : DelAcc),
      (deleteAlbumsGo env entries acc).events = acc.events ++ entries.map (albumDelEvent env)
  | [], acc => by simp [deleteAlbumsGo]
  | entry :: rest, acc => by
    cases hd : env.deleteAlbum entry.2.1 entry.2.2 with
    | ok u =>
      simp [deleteAlbumsGo, hd, deleteAlbumsGo_events env rest, albumDelEvent]
    | error e =>
      simp [deleteAlbumsGo, hd, deleteAlbumsGo_events env rest, albumDelEvent]

theorem deleteAlbumsGo_manifest (env : Env) :
    ∀ (entries : List (String × String × String)) (acc : DelAcc),
      (deleteAlbumsGo env entries acc).manifest = entries.foldl (albumDelStep env) acc.manifest
  | [], acc => by simp [deleteAlbumsGo]
  | entry :: rest, acc => by
    cases hd : env.deleteAlbum entry.2.1 entry.2.2 with
    | ok u =>
      simp [deleteAlbumsGo, hd, deleteAlbumsGo_manifest env rest, albumDelStep]
    | error e =>
      simp [deleteAlbumsGo, hd, deleteAlbumsGo_manifest env rest, albumDelStep]

theorem deletePlaylistsGo_events (env : Env) :
    ∀ (entries : List (String × String)) (acc : DelAcc),
      (deletePlaylistsGo env entries acc).events = acc.events ++ entries.map (playlistDelEvent env)
  | [], acc => by simp [deletePlaylistsGo]
  | entry :: rest, acc => by
    cases hd : env.deletePlaylist entry.2 with
    | ok u =>
      simp [deletePlaylistsGo, hd, deletePlaylistsGo_events env rest, playlistDelEvent]
    | error e =>
      simp [deletePlaylistsGo, hd, deletePlaylistsGo_events env rest, playlistDelEvent]

theorem deletePlaylistsGo_manifest (env : Env) :
    ∀ (entries : List (String × String)) (acc : DelAcc),
      (deletePlaylistsGo env entries acc).manifest = entries.foldl (playlistDelStep env) acc.manifest
  | [], acc => by simp [deletePlaylistsGo]
  | entry :: rest, acc => by
    cases hd : env.deletePlaylist entry.2 with
    | ok u =>
      simp [deletePlaylistsGo, hd, deletePlaylistsGo_manifest env rest, playlistDelStep]
    | error e =>
      simp [deletePlaylistsGo, hd, deletePlaylistsGo_manifest env rest, playlistDelStep]

theorem foldl_playlistDelStep_synced_albums (env : Env) :
    ∀ (entries : List (String × String)) (m : SyncManifest),
      (entries.foldl (playlistDelStep env) m).synced_albums = m.synced_albums
  | [], m => rfl
  | entry :: rest, m => by
    cases hd : env.deletePlaylist entry.2 with
    | ok u =>
      simp [playlistDelStep, hd, foldl_playlistDelStep_synced_albums env rest,
        SyncManifest.remove_playlist]
    | error e =>
      simp [playlistDelStep, hd, foldl_playlistDelStep_synced_albums env rest]

theorem mem_albumIds_remove (m : SyncManifest) (rid id : String) :
    id ∈ (m.remove_album rid).albumIds ↔ (id ∈ m.albumIds ∧ id ≠ rid) := by
  simp only [SyncManifest.remove_album, SyncManifest.albumIds, List.mem_map,
    List.mem_filter, bne_iff_ne, ne_eq]
  constructor
  · rintro ⟨a, ⟨ha, hne⟩, rfl⟩
    exact ⟨⟨a, ha, rfl⟩, hne⟩
  · rintro ⟨⟨a, ha, rfl⟩, hne⟩
    exact ⟨a, ⟨ha, hne⟩, rfl⟩

theorem foldl_albumDelStep_mem (env : Env) :
    ∀ (entries : List (String × String × String)) (m : SyncManifest) (id : String),
      (∀ e ∈ entries, e.1 ≠ id ∨ ∃ err, env.deleteAlbum e.2.1 e.2.2 = .error err) →
      (id ∈ (entries.foldl (albumDelStep env) m).albumIds ↔ id ∈ m.albumIds)
  | [], m, id, _ => Iff.rfl
  | entry :: rest, m, id, h => by
    have hrest := foldl_albumDelStep_mem env rest (albumDelStep env m entry) id
      (fun e he => h e (List.mem_cons_of_mem entry he))
    rw [List.foldl_cons, hrest]
    cases hd : env.deleteAlbum entry.2.1 entry.2.2 with
    | ok u =>
      rcases h entry (List.mem_cons_self entry rest) with hne | ⟨err, herr⟩
      · simp only [albumDelStep, hd]
        rw [mem_albumIds_remove]
        constructor
        · exact fun hx => hx.1
        · exact fun hx => ⟨hx, fun hcc => hne hcc.symm⟩
      · rw [hd] at herr; cases herr
    | error e =>
      simp [albumDelStep, hd]

theorem foldl_albumDelStep_not_mem (env : Env) :
    ∀ (entries : List (String × String × String)) (m : SyncManifest) (id : String),
      id ∉ m.albumIds → id ∉ (entries.foldl (albumDelStep env) m).albumIds
  | [], m, id, h => h
  | entry :: rest, m, id, h => by
    rw [List.foldl_cons]
    apply foldl_albumDelStep_not_mem env rest
    cases hd : env.deleteAlbum entry.2.1 entry.2.2 with
    | ok u =>
      simp only [albumDelStep, hd]
      intro hmem
      exact h ((mem_albumIds_remove m entry.1 id).mp hmem).1
    | error e =>
      simpa [albumDelStep, hd] using h

/-- C6: each deletion entry is attempted independently: a successful
album deletion removes that id from the manifest, a failed one retains it
and emits a per-item `AlbumDeleteFailed` event carrying the error, and the
phase attempts every album and playlist entry (one per-item event each),
never aborting on a failure. -/
theorem deletion_isolation (env : Env) (m : SyncManifest) (deletions : DeletionSelection)
    (hnd : (deletions.albums.map (fun e => e.1)).Nodup) :
    (∀ e ∈ deletions.albums, env.deleteAlbum e.2.1 e.2.2 = .ok () →
        e.1 ∉ (delete_deselected env m deletions).manifest.albumIds) ∧
    (∀ e ∈ deletions.albums, ∀ err, env.deleteAlbum e.2.1 e.2.2 = .error err →
        ((e.1 ∈ (delete_deselected env m deletions).manifest.albumIds ↔ e.1 ∈ m.albumIds) ∧
         SyncProgress.AlbumDeleteFailed e.2.1 e.2.2 err ∈ (delete_deselected env m deletions).events)) ∧
    ((delete_deselected env m deletions).events.countP isAlbumDeleteAttempt =
        deletions.albums.length) ∧
    ((delete_deselected env m deletions).events.countP isPlaylistDeleteAttempt =
        deletions.playlists.length) := by
  by_cases hemp : deletions.is_empty
  · have ha : deletions.albums = [] := by
      have := hemp
      simp only [DeletionSelection.is_empty, Bool.and_eq_true, List.isEmpty_iff] at this
      exact this.1
    have hp : deletions.playlists = [] := by
      have := hemp
      simp only [DeletionSelection.is_empty, Bool.and_eq_true, List.isEmpty_iff] at this
      exact this.2
    simp [delete_deselected, hemp, ha, hp]
  · set startEvents : List SyncProgress :=
      [SyncProgress.DeletionStarted deletions.albums.length deletions.playlists.length] with hse
    have hmani : (delete_deselected env m deletions).manifest.synced_albums =
        (deletions.albums.foldl (albumDelStep env) m).synced_albums := by
      simp only [delete_deselected, hemp, if_neg, Bool.false_eq_true, not_false_eq_true,
        if_false]
      rw [deletePlaylistsGo_manifest, foldl_playlistDelStep_synced_albums,
        deleteAlbumsGo_manifest]
    have hids : ∀ id, (id ∈ (delete_deselected env m deletions).manifest.albumIds ↔
        id ∈ (deletions.albums.foldl (albumDelStep env) m).albumIds) := by
      intro id
      simp only [SyncManifest.albumIds, hmani]
    have hevents : (delete_deselected env m deletions).events =
        startEvents ++ deletions.albums.map (albumDelEvent env) ++
          deletions.playlists.map (playlistDelEvent env) := by
      simp only [delete_deselected, hemp, if_neg, Bool.false_eq_true, not_false_eq_true,
        if_false]
      rw [deletePlaylistsGo_events, deleteAlbumsGo_events]
    refine ⟨?_, ?_, ?_, ?_⟩
    · intro e he hok
      rw [hids]
      obtain ⟨s, t, hsplit⟩ := List.append_of_mem he
      rw [hsplit, List.foldl_append, List.foldl_cons]
      apply foldl_albumDelStep_not_mem
      simp only [albumDelStep, hok]
      rw [mem_albumIds_remove]
      rintro ⟨-, hne⟩
      exact hne rfl
    · intro e he err herr
      constructor
      · rw [hids]
        apply foldl_albumDelStep_mem
        intro e' he'
        by_cases hid : e'.1 = e.1
        · have : e' = e := by
            apply List.inj_on_of_nodup_map hnd he' he
            exact hid
          rw [this, herr]
          exact Or.inr ⟨err, rfl⟩
        · exact Or.inl hid
      · rw [hevents]
        refine List.mem_append.mpr (Or.inl (List.mem_append.mpr (Or.inr ?_)))
        refine List.mem_map.mpr ⟨e, he, ?_⟩
        simp [albumDelEvent, herr]
    · rw [hevents]
      rw [List.countP_append, List.countP_append]
      have h0 : startEvents.countP isAlbumDeleteAttempt = 0 := by
        simp [hse, isAlbumDeleteAttempt]
      have h1 : (deletions.albums.map (albumDelEvent env)).countP isAlbumDeleteAttempt =
          (deletions.albums.map (albumDelEvent env)).length := by
        rw [List.countP_eq_length]
        intro ev hev
        obtain ⟨e, he, rfl⟩ := List.mem_map.mp hev
        cases hd : env.deleteAlbum e.2.1 e.2.2 <;> simp [albumDelEvent, hd, isAlbumDeleteAttempt]
      have h2 : (deletions.playlists.map (playlistDelEvent env)).countP isAlbumDeleteAttempt = 0 := by
        rw [List.countP_eq_zero]
        intro ev hev
        obtain ⟨e, he, rfl⟩ := List.mem_map.mp hev
        cases hd : env.deletePlaylist e.2 <;> simp [playlistDelEvent, hd, isAlbumDeleteAttempt]
      rw [h0, h1, h2]
      simp [List.length_map]
    · rw [hevents]
      rw [List.countP_append, List.countP_append]
      have h0 : startEvents.countP isPlaylistDeleteAttempt = 0 := by
        simp [hse, isPlaylistDeleteAttempt]
      have h1 : (deletions.albums.map (albumDelEvent env)).countP isPlaylistDeleteAttempt = 0 := by
        rw [List.countP_eq_zero]
        intro ev hev
        obtain ⟨e, he, rfl⟩ := List.mem_map.mp hev
        cases hd : env.deleteAlbum e.2.1 e.2.2 <;> simp [albumDelEvent, hd, isPlaylistDeleteAttempt]
      have h2 : (deletions.playlists.map (playlistDelEvent env)).countP isPlaylistDeleteAttempt =
          (deletions.playlists.map (playlistDelEvent env)).length := by
        rw [List.countP_eq_length]
        intro ev hev
        obtain ⟨e, he, rfl⟩ := List.mem_map.mp hev
        cases hd : env.deletePlaylist e.2 <;> simp [playlistDelEvent, hd, isPlaylistDeleteAttempt]
      rw [h0, h1, h2]
      simp [List.length_map]

/-- Witness for C6: deleting album A fails (record retained, failure event
emitted), deleting album B succeeds (record removed). -/
theorem deletion_isolation_witness :
    "idA" ∈ (delete_deselected env6 manifest6 deletions6).manifest.albumIds ∧
    "idB" ∉ (delete_deselected env6 manifest6 deletions6).manifest.albumIds ∧
    SyncProgress.AlbumDeleteFailed "ArtA" "A" "permission denied" ∈
      (delete_deselected env6 manifest6 deletions6).events := by
  have h := deletion_isolation env6 manifest6 deletions6 (by decide)
  have hA := h.2.1 ("idA", "ArtA", "A") (by decide) "permission denied" rfl
  have hB := h.1 ("idB", "ArtB", "B") (by decide) rfl
  refine ⟨hA.1.mpr (by decide), hB, hA.2⟩

/-! ## Helper lemmas: album unit stages -/

theorem downloadAlbumTracks_snd (env : Env) :
    ∀ songs : List Song,
      (downloadAlbumTracks env songs).2 =
        (songs.filter (dlOk env)).map (fun s => (s, dlData env s))
  | [] => rfl
  | s :: rest => by
    have ih := downloadAlbumTracks_snd env rest
    simp only [downloadAlbumTracks] at ih ⊢
    cases hd : env.download s.id with
    | ok data =>
      simp [List.filterMap_cons, List.filter_cons, dlOk, dlData, hd, ih]
    | error e =>
      simp [List.filterMap_cons, List.filter_cons, dlOk, dlData, hd, ih]

theorem writeAlbumTracks_ok_count (env : Env) :
    ∀ (ts : List ProcessedTrack) (b : Nat),
      (writeAlbumTracks env ts).2 = .ok b →
      (writeAlbumTracks env ts).1.countP isAlbumTrackWrite = ts.length
  | [], b, _ => rfl
  | t :: rest, b, h => by
    simp only [writeAlbumTracks] at h ⊢
    cases hw : env.writeAlbumTrack t.artist t.album t.track_number t.song.title
        (t.song.suffix.getD "mp3") t.final_audio_data with
    | error e => rw [hw] at h; cases h
    | ok u =>
      rw [hw] at h
      simp only at h
      cases ht : (writeAlbumTracks env rest).2 with
      | error e => rw [ht] at h; cases h
      | ok b' =>
        have := writeAlbumTracks_ok_count env rest b' ht
        simp [List.countP_cons, isAlbumTrackWrite, this]

theorem writeAlbumTracks_all_ok (env : Env)
    (hw : ∀ artist album tn title ext data,
      env.writeAlbumTrack artist album tn title ext data = .ok ()) :
    ∀ ts : List ProcessedTrack,
      writeAlbumTracks env ts = (ts.map writeOpOf, .ok (albumBytes ts))
  | [] => rfl
  | t :: rest => by
    have ih := writeAlbumTracks_all_ok env hw rest
    simp [writeAlbumTracks, hw, ih, writeOpOf, albumBytes]

theorem sync_album_skip (env : Env) (m : SyncManifest) (album : Album) (now : Nat)
    (hsync : m.is_album_synced album.id = true) :
    sync_album_with_progress env m album now =
      { result := .ok (0, 0), manifest := m, events := [], net := [], writes := [] } := by
  simp [sync_album_with_progress, hsync]

theorem sync_playlist_skip (env : Env) (m : SyncManifest) (playlist : Playlist) (now : Nat)
    (hsync : m.is_playlist_synced playlist.id = true) :
    sync_playlist_with_progress env m playlist now =
      { result := .ok (0, 0), manifest := m, events := [], net := [], writes := [] } := by
  simp [sync_playlist_with_progress, hsync]

/-- Master case analysis of one album unit: a manifest hit is a skip; a
fresh unit either fails with the manifest untouched or succeeds with the
record upserted after exactly one write per processed track. -/
theorem sync_album_spec (env : Env) (m : SyncManifest) (album : Album) (now : Nat) :
    (m.is_album_synced album.id = true ∧
     sync_album_with_progress env m album now =
       { result := .ok (0, 0), manifest := m, events := [], net := [], writes := [] }) ∨
    (m.is_album_synced album.id = false ∧
     ((∃ e, (sync_album_with_progress env m album now).result = .error e ∧
            (sync_album_with_progress env m album now).manifest = m) ∨
      (∃ tc bytes, (sync_album_with_progress env m album now).result = .ok (tc, bytes) ∧
            (sync_album_with_progress env m album now).manifest =
              m.add_album { id := album.id, artist := album.artist.getD "Unknown Artist",
                            album := album.name, track_count := tc, synced_at := now } now ∧
            (sync_album_with_progress env m album now).writes.countP isAlbumTrackWrite = tc))) := by
  by_cases hsync : m.is_album_synced album.id
  · exact Or.inl ⟨hsync, sync_album_skip env m album now hsync⟩
  · refine Or.inr ⟨by simpa using hsync, ?_⟩
    cases hga : env.getAlbum album.id with
    | error e =>
      refine Or.inl ⟨e, ?_, ?_⟩ <;>
        simp [sync_album_with_progress, hsync, hga]
    | ok details =>
      cases hwres : (writeAlbumTracks env (process_tracks env
          (albumDownloaded env album details) (albumCover env album))).2 with
      | error e =>
        refine Or.inl ⟨e, ?_, ?_⟩ <;>
          simp [sync_album_with_progress, hsync, hga, hwres]
      | ok total_bytes =>
        refine Or.inr ⟨(process_tracks env (albumDownloaded env album details)
            (albumCover env album)).length, total_bytes, ?_, ?_, ?_⟩
        · simp [sync_album_with_progress, hsync, hga, hwres]
        · simp [sync_album_with_progress, hsync, hga, hwres]
        · have hcount := writeAlbumTracks_ok_count env _ _ hwres
          have hcover : ∀ (cov : Option Bytes),
              (match cov with
               | some cover =>
                 match env.writeCoverArt (album.artist.getD "Unknown Artist") album.name cover with
                 | .ok _ => [WriteOp.coverArt (album.artist.getD "Unknown Artist") album.name cover]
                 | .error _ => []
               | none => ([] : List WriteOp)).countP isAlbumTrackWrite = 0 := by
            intro cov
            cases cov with
            | none => rfl
            | some cover =>
              cases hwc : env.writeCoverArt (album.artist.getD "Unknown Artist") album.name cover with
              | ok u => simp [hwc, isAlbumTrackWrite]
              | error e => simp [hwc]
          simp only [sync_album_with_progress, hsync, hga, hwres]
          simp only [Bool.false_eq_true, if_false, List.countP_append]
          rw [hcount, hcover]
          omega

theorem sync_playlist_manifest_unchanged_of_error (env : Env) (m : SyncManifest)
    (playlist : Playlist) (now : Nat) (e : String)
    (h : (sync_playlist_with_progress env m playlist now).result = .error e) :
    (sync_playlist_with_progress env m playlist now).manifest = m := by
  by_cases hsync : m.is_playlist_synced playlist.id
  · rw [sync_playlist_skip env m playlist now hsync]
  · cases hgp : env.getPlaylist playlist.id with
    | error e' => simp [sync_playlist_with_progress, hsync, hgp]
    | ok details =>
      cases hw : (writePlaylistTracks env playlist.name (processPlaylistTracks env
          (buildCoverCache env (downloadPlaylistTracks env details.songs).2)
          (downloadPlaylistTracks env details.songs).2)).2 with
      | error e' => simp [sync_playlist_with_progress, hsync, hgp, hw]
      | ok fb =>
        cases hm3u : env.writeM3u playlist.name fb.1 with
        | error e' => simp [sync_playlist_with_progress, hsync, hgp, hw, hm3u]
        | ok u =>
          exfalso
          simp [sync_playlist_with_progress, hsync, hgp, hw, hm3u] at h

theorem albumStep_congr (env : Env) (now : Nat) (acc acc' : RunAcc) (album : Album)
    (hr : acc.result = acc'.result) (hm : acc.manifest = acc'.manifest)
    (hw : acc.writes = acc'.writes) :
    (albumStep env now acc album).result = (albumStep env now acc' album).result ∧
    (albumStep env now acc album).manifest = (albumStep env now acc' album).manifest ∧
    (albumStep env now acc album).writes = (albumStep env now acc' album).writes := by
  simp only [albumStep, hr, hm, hw]
  cases (sync_album_with_progress env acc'.manifest album now).result with
  | ok tb => by_cases htb : tb.1 > 0 <;> simp [htb]
  | error e => simp

theorem playlistStep_congr (env : Env) (now : Nat) (acc acc' : RunAcc) (playlist : Playlist)
    (hr : acc.result = acc'.result) (hm : acc.manifest = acc'.manifest)
    (hw : acc.writes = acc'.writes) :
    (playlistStep env now acc playlist).result = (playlistStep env now acc' playlist).result ∧
    (playlistStep env now acc playlist).manifest = (playlistStep env now acc' playlist).manifest ∧
    (playlistStep env now acc playlist).writes = (playlistStep env now acc' playlist).writes := by
  simp only [playlistStep, hr, hm, hw]
  cases (sync_playlist_with_progress env acc'.manifest playlist now).result with
  | ok tb => by_cases htb : tb.1 > 0 <;> simp [htb]
  | error e => simp

theorem syncAlbumsGo_congr (env : Env) (now : Nat) :
    ∀ (albums : List Album) (acc acc' : RunAcc),
      acc.result = acc'.result → acc.manifest = acc'.manifest → acc.writes = acc'.writes →
      (syncAlbumsGo env now albums acc).result = (syncAlbumsGo env now albums acc').result ∧
      (syncAlbumsGo env now albums acc).manifest = (syncAlbumsGo env now albums acc').manifest ∧
      (syncAlbumsGo env now albums acc).writes = (syncAlbumsGo env now albums acc').writes
  | [], acc, acc', hr, hm, hw => ⟨hr, hm, hw⟩
  | a :: rest, acc, acc', hr, hm, hw => by
    obtain ⟨h1, h2, h3⟩ := albumStep_congr env now acc acc' a hr hm hw
    exact syncAlbumsGo_congr env now rest _ _ h1 h2 h3

theorem albumStep_failed (env : Env) (now : Nat) (acc : RunAcc) (album : Album) (e : String)
    (hga : env.getAlbum album.id = .error e) :
    (albumStep env now acc album).result = acc.result ∧
    (albumStep env now acc album).manifest = acc.manifest ∧
    (albumStep env now acc album).writes = acc.writes := by
  by_cases hsync : acc.manifest.is_album_synced album.id
  · simp [albumStep, sync_album_skip env acc.manifest album now hsync]
  · simp [albumStep, sync_album_with_progress, hsync, hga]

theorem syncAlbumsGo_drop_failed (env : Env) (now : Nat) (album : Album) (e : String)
    (hga : env.getAlbum album.id = .error e) :
    ∀ (pre post : List Album) (acc : RunAcc),
      (syncAlbumsGo env now (pre ++ album :: post) acc).result =
        (syncAlbumsGo env now (pre ++ post) acc).result ∧
      (syncAlbumsGo env now (pre ++ album :: post) acc).manifest =
        (syncAlbumsGo env now (pre ++ post) acc).manifest ∧
      (syncAlbumsGo env now (pre ++ album :: post) acc).writes =
        (syncAlbumsGo env now (pre ++ post) acc).writes
  | [], post, acc => by
    obtain ⟨h1, h2, h3⟩ := albumStep_failed env now acc album e hga
    simpa [syncAlbumsGo] using
      syncAlbumsGo_congr env now post (albumStep env now acc album) acc h1 h2 h3
  | a :: pre, post, acc => by
    simpa [syncAlbumsGo] using
      syncAlbumsGo_drop_failed env now album e hga pre post (albumStep env now acc a)

theorem writePlaylistTracks_ok_count (env : Env) (name : String) :
    ∀ (ts : List (Song × String × String × Bytes)) (fb : List String × Nat),
      (writePlaylistTracks env name ts).2 = .ok fb →
      (writePlaylistTracks env name ts).1.countP isPlaylistTrackWrite = fb.1.length
  | [], fb, h => by
    simp only [writePlaylistTracks] at h ⊢
    cases h
    rfl
  | t :: rest, fb, h => by
    simp only [writePlaylistTracks] at h ⊢
    cases hw : env.writePlaylistTrack name t.2.1 t.1.title t.2.2.1 t.2.2.2 with
    | error e => rw [hw] at h; cases h
    | ok filename =>
      rw [hw] at h
      simp only at h ⊢
      cases ht : (writePlaylistTracks env name rest).2 with
      | error e => rw [ht] at h; cases h
      | ok fb' =>
        rw [ht] at h
        cases h
        have := writePlaylistTracks_ok_count env name rest fb' ht
        simp [List.countP_cons, isPlaylistTrackWrite, this]

/-- The ok case of one playlist unit: either a skip (manifest untouched) or
the record upserted with exactly one completed playlist-track write per
counted track. -/
theorem sync_playlist_ok_case (env : Env) (m : SyncManifest) (playlist : Playlist)
    (now : Nat) (tc bytes : Nat)
    (h : (sync_playlist_with_progress env m playlist now).result = .ok (tc, bytes)) :
    (sync_playlist_with_progress env m playlist now).manifest = m ∨
    ((sync_playlist_with_progress env m playlist now).manifest =
       m.add_playlist { id := playlist.id, name := playlist.name, track_count := tc,
                        synced_at := now } now ∧
     (sync_playlist_with_progress env m playlist now).writes.countP
       isPlaylistTrackWrite = tc) := by
  by_cases hsync : m.is_playlist_synced playlist.id
  · rw [sync_playlist_skip env m playlist now hsync]
    exact Or.inl rfl
  · cases hgp : env.getPlaylist playlist.id with
    | error e => exfalso; simp [sync_playlist_with_progress, hsync, hgp] at h
    | ok details =>
      cases hw : (writePlaylistTracks env playlist.name (processPlaylistTracks env
          (buildCoverCache env (downloadPlaylistTracks env details.songs).2)
          (downloadPlaylistTracks env details.songs).2)).2 with
      | error e => exfalso; simp [sync_playlist_with_progress, hsync, hgp, hw] at h
      | ok fb =>
        cases hm3u : env.writeM3u playlist.name fb.1 with
        | error e =>
          exfalso; simp [sync_playlist_with_progress, hsync, hgp, hw, hm3u] at h
        | ok u =>
          right
          have htc : fb.1.length = tc := by
            simp [sync_playlist_with_progress, hsync, hgp, hw, hm3u] at h
            exact h.1
          have hcount := writePlaylistTracks_ok_count env playlist.name _ fb hw
          constructor
          · simp [sync_playlist_with_progress, hsync, hgp, hw, hm3u, htc]
          · have hwr : (sync_playlist_with_progress env m playlist now).writes =
                (writePlaylistTracks env playlist.name (processPlaylistTracks env
                  (buildCoverCache env (downloadPlaylistTracks env details.songs).2)
                  (downloadPlaylistTracks env details.songs).2)).1 ++
                [WriteOp.m3u playlist.name fb.1] := by
              simp [sync_playlist_with_progress, hsync, hgp, hw, hm3u]
            rw [hwr, List.countP_append, hcount]
            simp [isPlaylistTrackWrite, htc]

theorem albumStep_congr2 (env : Env) (now : Nat) (acc acc' : RunAcc) (album : Album)
    (hr : acc.result = acc'.result) (hm : acc.manifest = acc'.manifest) :
    (albumStep env now acc album).result = (albumStep env now acc' album).result ∧
    (albumStep env now acc album).manifest = (albumStep env now acc' album).manifest := by
  simp only [albumStep, hr, hm]
  cases (sync_album_with_progress env acc'.manifest album now).result with
  | ok tb => by_cases htb : tb.1 > 0 <;> simp [htb]
  | error e => simp

theorem playlistStep_congr2 (env : Env) (now : Nat) (acc acc' : RunAcc) (playlist : Playlist)
    (hr : acc.result = acc'.result) (hm : acc.manifest = acc'.manifest) :
    (playlistStep env now acc playlist).result = (playlistStep env now acc' playlist).result ∧
    (playlistStep env now acc playlist).manifest = (playlistStep env now acc' playlist).manifest := by
  simp only [playlistStep, hr, hm]
  cases (sync_playlist_with_progress env acc'.manifest playlist now).result with
  | ok tb => by_cases htb : tb.1 > 0 <;> simp [htb]
  | error e => simp

theorem syncAlbumsGo_congr2 (env : Env) (now : Nat) :
    ∀ (albums : List Album) (acc acc' : RunAcc),
      acc.result = acc'.result → acc.manifest = acc'.manifest →
      (syncAlbumsGo env now albums acc).result = (syncAlbumsGo env now albums acc').result ∧
      (syncAlbumsGo env now albums acc).manifest = (syncAlbumsGo env now albums acc').manifest
  | [], acc, acc', hr, hm => ⟨hr, hm⟩
  | a :: rest, acc, acc', hr, hm => by
    obtain ⟨h1, h2⟩ := albumStep_congr2 env now acc acc' a hr hm
    exact syncAlbumsGo_congr2 env now rest _ _ h1 h2

theorem syncPlaylistsGo_congr2 (env : Env) (now : Nat) :
    ∀ (playlists : List Playlist) (acc acc' : RunAcc),
      acc.result = acc'.result → acc.manifest = acc'.manifest →
      (syncPlaylistsGo env now playlists acc).result =
        (syncPlaylistsGo env now playlists acc').result ∧
      (syncPlaylistsGo env now playlists acc).manifest =
        (syncPlaylistsGo env now playlists acc').manifest
  | [], acc, acc', hr, hm => ⟨hr, hm⟩
  | p :: rest, acc, acc', hr, hm => by
    obtain ⟨h1, h2⟩ := playlistStep_congr2 env now acc acc' p hr hm
    exact syncPlaylistsGo_congr2 env now rest _ _ h1 h2

/-- A unit that errors whenever it is actually attempted (covering catalog
fetch failures and write failures alike) leaves the orchestrator's result
and manifest as they were, whether it is skipped or fails. -/
theorem albumStep_failing (env : Env) (now : Nat) (acc : RunAcc) (album : Album)
    (hunit : ∀ m' : SyncManifest, m'.is_album_synced album.id = false →
      ∃ e, (sync_album_with_progress env m' album now).result = .error e) :
    (albumStep env now acc album).result = acc.result ∧
    (albumStep env now acc album).manifest = acc.manifest := by
  by_cases hsync : acc.manifest.is_album_synced album.id
  · simp [albumStep, sync_album_skip env acc.manifest album now hsync]
  · obtain ⟨e, he⟩ := hunit acc.manifest (by simpa using hsync)
    have hm : (sync_album_with_progress env acc.manifest album now).manifest =
        acc.manifest := by
      rcases sync_album_spec env acc.manifest album now with
        ⟨hs, _⟩ | ⟨_, ⟨e', _, hm⟩ | ⟨tc, bytes, hok, _, _⟩⟩
      · exact absurd hs (by simpa using hsync)
      · exact hm
      · rw [hok] at he; cases he
    simp [albumStep, he, hm]

theorem playlistStep_failing (env : Env) (now : Nat) (acc : RunAcc) (playlist : Playlist)
    (hunit : ∀ m' : SyncManifest, m'.is_playlist_synced playlist.id = false →
      ∃ e, (sync_playlist_with_progress env m' playlist now).result = .error e) :
    (playlistStep env now acc playlist).result = acc.result ∧
    (playlistStep env now acc playlist).manifest = acc.manifest := by
  by_cases hsync : acc.manifest.is_playlist_synced playlist.id
  · simp [playlistStep, sync_playlist_skip env acc.manifest playlist now hsync]
  · obtain ⟨e, he⟩ := hunit acc.manifest (by simpa using hsync)
    have hm := sync_playlist_manifest_unchanged_of_error env acc.manifest playlist now e he
    simp [playlistStep, he, hm]

theorem syncAlbumsGo_drop_failing (env : Env) (now : Nat) (album : Album)
    (hunit : ∀ m' : SyncManifest, m'.is_album_synced album.id = false →
      ∃ e, (sync_album_with_progress env m' album now).result = .error e) :
    ∀ (pre post : List Album) (acc : RunAcc),
      (syncAlbumsGo env now (pre ++ album :: post) acc).result =
        (syncAlbumsGo env now (pre ++ post) acc).result ∧
      (syncAlbumsGo env now (pre ++ album :: post) acc).manifest =
        (syncAlbumsGo env now (pre ++ post) acc).manifest
  | [], post, acc => by
    obtain ⟨h1, h2⟩ := albumStep_failing env now acc album hunit
    simpa [syncAlbumsGo] using
      syncAlbumsGo_congr2 env now post (albumStep env now acc album) acc h1 h2
  | a :: pre, post, acc => by
    simpa [syncAlbumsGo] using
      syncAlbumsGo_drop_failing env now album hunit pre post (albumStep env now acc a)

theorem syncPlaylistsGo_drop_failing (env : Env) (now : Nat) (playlist : Playlist)
    (hunit : ∀ m' : SyncManifest, m'.is_playlist_synced playlist.id = false →
      ∃ e, (sync_playlist_with_progress env m' playlist now).result = .error e) :
    ∀ (pre post : List Playlist) (acc : RunAcc),
      (syncPlaylistsGo env now (pre ++ playlist :: post) acc).result =
        (syncPlaylistsGo env now (pre ++ post) acc).result ∧
      (syncPlaylistsGo env now (pre ++ playlist :: post) acc).manifest =
        (syncPlaylistsGo env now (pre ++ post) acc).manifest
  | [], post, acc => by
    obtain ⟨h1, h2⟩ := playlistStep_failing env now acc playlist hunit
    simpa [syncPlaylistsGo] using
      syncPlaylistsGo_congr2 env now post (playlistStep env now acc playlist) acc h1 h2
  | p :: pre, post, acc => by
    simpa [syncPlaylistsGo] using
      syncPlaylistsGo_drop_failing env now playlist hunit pre post (playlistStep env now acc p)

/-! ## C7: manifest-after-writes ordering and per-unit atomicity -/

/-- C7: a unit (album or playlist) that fails — catalog fetch or write
failure — leaves the manifest untouched; a unit that returns ok either
skipped (manifest untouched) or upserted its record only after one
completed write per counted track; and any unit that errors whenever
attempted (catalog fetch failure, or an always-failing write) contributes
nothing to the run — dropping it from the loop leaves the loop's result and
manifest unchanged, the remaining units proceeding identically (for a
catalog-fetch failure even the write trace is unchanged). -/
theorem manifest_after_writes (env : Env) (now : Nat) :
    (∀ m album e, (sync_album_with_progress env m album now).result = .error e →
        (sync_album_with_progress env m album now).manifest = m) ∧
    (∀ m playlist e, (sync_playlist_with_progress env m playlist now).result = .error e →
        (sync_playlist_with_progress env m playlist now).manifest = m) ∧
    (∀ m album tc bytes, (sync_album_with_progress env m album now).result = .ok (tc, bytes) →
        ((sync_album_with_progress env m album now).manifest = m ∨
         ((sync_album_with_progress env m album now).manifest =
             m.add_album { id := album.id, artist := album.artist.getD "Unknown Artist",
                           album := album.name, track_count := tc, synced_at := now } now ∧
          (sync_album_with_progress env m album now).writes.countP isAlbumTrackWrite = tc))) ∧
    (∀ album e, env.getAlbum album.id = .error e →
        ∀ (pre post : List Album) (acc : RunAcc),
          (syncAlbumsGo env now (pre ++ album :: post) acc).result =
            (syncAlbumsGo env now (pre ++ post) acc).result ∧
          (syncAlbumsGo env now (pre ++ album :: post) acc).manifest =
            (syncAlbumsGo env now (pre ++ post) acc).manifest ∧
          (syncAlbumsGo env now (pre ++ album :: post) acc).writes =
            (syncAlbumsGo env now (pre ++ post) acc).writes) ∧
    (∀ m playlist tc bytes,
        (sync_playlist_with_progress env m playlist now).result = .ok (tc, bytes) →
        ((sync_playlist_with_progress env m playlist now).manifest = m ∨
         ((sync_playlist_with_progress env m playlist now).manifest =
             m.add_playlist { id := playlist.id, name := playlist.name,
                              track_count := tc, synced_at := now } now ∧
          (sync_playlist_with_progress env m playlist now).writes.countP
            isPlaylistTrackWrite = tc))) ∧
    (∀ album : Album,
        (∀ m' : SyncManifest, m'.is_album_synced album.id = false →
          ∃ e, (sync_album_with_progress env m' album now).result = .error e) →
        ∀ (pre post : List Album) (acc : RunAcc),
          (syncAlbumsGo env now (pre ++ album :: post) acc).result =
            (syncAlbumsGo env now (pre ++ post) acc).result ∧
          (syncAlbumsGo env now (pre ++ album :: post) acc).manifest =
            (syncAlbumsGo env now (pre ++ post) acc).manifest) ∧
    (∀ playlist : Playlist,
        (∀ m' : SyncManifest, m'.is_playlist_synced playlist.id = false →
          ∃ e, (sync_playlist_with_progress env m' playlist now).result = .error e) →
        ∀ (pre post : List Playlist) (acc : RunAcc),
          (syncPlaylistsGo env now (pre ++ playlist :: post) acc).result =
            (syncPlaylistsGo env now (pre ++ post) acc).result ∧
          (syncPlaylistsGo env now (pre ++ playlist :: post) acc).manifest =
            (syncPlaylistsGo env now (pre ++ post) acc).manifest) := by
  refine ⟨?_, ?_, ?_, ?_, ?_, ?_, ?_⟩
  · intro m album e h
    rcases sync_album_spec env m album now with ⟨_, heq⟩ | ⟨_, ⟨e', _, hm⟩ | ⟨tc, bytes, hok, _⟩⟩
    · rw [heq] at h; cases h
    · exact hm
    · rw [hok] at h; cases h
  · intro m playlist e h
    exact sync_playlist_manifest_unchanged_of_error env m playlist now e h
  · intro m album tc bytes h
    rcases sync_album_spec env m album now with ⟨_, heq⟩ | ⟨_, ⟨e', herr, _⟩ | ⟨tc', bytes', hok, hm, hc⟩⟩
    · rw [heq]
      exact Or.inl rfl
    · rw [herr] at h; cases h
    · rw [h] at hok
      have htc : tc' = tc := by
        cases hok
        rfl
      subst htc
      exact Or.inr ⟨hm, hc⟩
  · intro album e hga pre post acc
    exact syncAlbumsGo_drop_failed env now album e hga pre post acc
  · intro m playlist tc bytes h
    exact sync_playlist_ok_case env m playlist now tc bytes h
  · intro album hunit pre post acc
    exact syncAlbumsGo_drop_failing env now album hunit pre post acc
  · intro playlist hunit pre post acc
    exact syncPlaylistsGo_drop_failing env now playlist hunit pre post acc

/-- Witness for C7: with an unreachable catalog a unit fails and the
manifest is unchanged and dropping it leaves the loop's writes unchanged; a
successful playlist unit is upserted with one playlist-track write per
track; an album unit whose writes always fail, and a playlist unit whose
catalog fetch always fails, contribute nothing to the loop's manifest and
result. -/
theorem manifest_after_writes_witness :
    (sync_album_with_progress env7 manifest0 album7 0).manifest = manifest0 ∧
    (syncAlbumsGo env7 0 [albumW, album7] acc9).writes =
      (syncAlbumsGo env7 0 [albumW] acc9).writes ∧
    (sync_playlist_with_progress env2 manifest0 playlistW 1).writes.countP
      isPlaylistTrackWrite = 1 ∧
    (syncAlbumsGo envWF 0 [albumW] acc9).manifest =
      (syncAlbumsGo envWF 0 ([] : List Album) acc9).manifest ∧
    (syncPlaylistsGo envBase 0 [playlistW] acc9).result =
      (syncPlaylistsGo envBase 0 ([] : List Playlist) acc9).result := by
  have h7 := manifest_after_writes env7 0
  have h2 := manifest_after_writes env2 1
  have hWF := manifest_after_writes envWF 0
  have hPB := manifest_after_writes envBase 0
  refine ⟨h7.1 manifest0 album7 "catalog unreachable" rfl, ?_, ?_, ?_, ?_⟩
  · have h4 := h7.2.2.2.1 album7 "catalog unreachable" rfl [albumW] [] acc9
    simpa using h4.2.2
  · have h5 := h2.2.2.2.2.1 manifest0 playlistW 1 1 (by rfl)
    rcases h5 with hm | ⟨_, hc⟩
    · exact absurd hm (by decide)
    · exact hc
  · have hunit : ∀ m' : SyncManifest, m'.is_album_synced albumW.id = false →
        ∃ e, (sync_album_with_progress envWF m' albumW 0).result = .error e := by
      intro m' hm'
      refine ⟨"disk full", ?_⟩
      simp only [sync_album_with_progress, hm', Bool.false_eq_true, if_false]
      rfl
    have h6 := hWF.2.2.2.2.2.1 albumW hunit [] [] acc9
    simpa using h6.2
  · have hunit : ∀ m' : SyncManifest, m'.is_playlist_synced playlistW.id = false →
        ∃ e, (sync_playlist_with_progress envBase m' playlistW 0).result = .error e := by
      intro m' hm'
      refine ⟨"unknown playlist", ?_⟩
      simp only [sync_playlist_with_progress, hm', Bool.false_eq_true, if_false]
      rfl
    have h8 := hPB.2.2.2.2.2.2 playlistW hunit [] [] acc9
    simpa using h8.1

/-! ## Helper lemmas: C3/C9 stage bookkeeping -/

theorem countP_not_add (p : α → Bool) : ∀ l : List α,
    l.countP p + l.countP (fun a => !(p a)) = l.length
  | [] => rfl
  | x :: rest => by
    have ih := countP_not_add p rest
    cases hx : p x <;> simp [List.countP_cons, hx] <;> omega

theorem albumDownloaded_map_song (env : Env) (album : Album) (details : AlbumWithSongs) :
    (albumDownloaded env album details).map (fun t => t.song) =
      details.song.filter (dlOk env) := by
  rw [albumDownloaded, downloadAlbumTracks_snd]
  induction details.song.filter (dlOk env) with
  | nil => rfl
  | cons s rest ih => simpa using ih

theorem process_tracks_map_song (env : Env) (ts : List DownloadedTrack) (cov : Option Bytes) :
    (process_tracks env ts cov).map (fun t => t.song) = ts.map (fun t => t.song) := by
  simp [process_tracks, List.map_map]

theorem process_tracks_length (env : Env) (ts : List DownloadedTrack) (cov : Option Bytes) :
    (process_tracks env ts cov).length = ts.length := by
  simp [process_tracks]

theorem writeOps_count (ts : List ProcessedTrack) :
    (ts.map writeOpOf).countP isAlbumTrackWrite = ts.length := by
  induction ts with
  | nil => rfl
  | cons t rest ih => simp [writeOpOf, isAlbumTrackWrite, List.countP_cons, ih]

theorem writeOps_titles (ts : List ProcessedTrack) :
    (ts.map writeOpOf).filterMap albumTrackTitle = ts.map (fun t => t.song.title) := by
  induction ts with
  | nil => rfl
  | cons t rest ih => simp [writeOpOf, albumTrackTitle, List.filterMap_cons, ih]

theorem coverWrites_trivia (env : Env) (album : Album) :
    (match albumCover env album with
     | some cover =>
       match env.writeCoverArt (album.artist.getD "Unknown Artist") album.name cover with
       | .ok _ => [WriteOp.coverArt (album.artist.getD "Unknown Artist") album.name cover]
       | .error _ => []
     | none => ([] : List WriteOp)).countP isAlbumTrackWrite = 0 ∧
    (match albumCover env album with
     | some cover =>
       match env.writeCoverArt (album.artist.getD "Unknown Artist") album.name cover with
       | .ok _ => [WriteOp.coverArt (album.artist.getD "Unknown Artist") album.name cover]
       | .error _ => []
     | none => ([] : List WriteOp)).filterMap albumTrackTitle = [] := by
  cases albumCover env album with
  | none => exact ⟨rfl, rfl⟩
  | some cover =>
    cases hwc : env.writeCoverArt (album.artist.getD "Unknown Artist") album.name cover with
    | ok u => simp [hwc, isAlbumTrackWrite, albumTrackTitle]
    | error e => simp [hwc]

/-! ## C3: partial-failure isolation per track -/

/-- C3: in an album unit of `n` tracks where exactly one download fails and
every write succeeds, the unit completes: the result reports `n - 1`
tracks, exactly the `n - 1` successfully downloaded tracks are written (in
order, by title), and the album's manifest record is upserted with
`track_count = n - 1`. -/
theorem partial_failure_isolation (env : Env) (m : SyncManifest) (album : Album)
    (now : Nat) (details : AlbumWithSongs) (n : Nat)
    (hsync : m.is_album_synced album.id = false)
    (hga : env.getAlbum album.id = .ok details)
    (hn : details.song.length = n)
    (hfail : details.song.countP (fun s => !(dlOk env s)) = 1)
    (hw : ∀ artist albumName tn title ext data,
        env.writeAlbumTrack artist albumName tn title ext data = .ok ()) :
    (∃ bytes, (sync_album_with_progress env m album now).result = .ok (n - 1, bytes)) ∧
    (sync_album_with_progress env m album now).writes.countP isAlbumTrackWrite = n - 1 ∧
    (sync_album_with_progress env m album now).writes.filterMap albumTrackTitle =
      (details.song.filter (dlOk env)).map (fun s => s.title) ∧
    (∃ r ∈ (sync_album_with_progress env m album now).manifest.synced_albums,
        r.id = album.id ∧ r.track_count = n - 1) := by
  have hsync' : ¬(m.is_album_synced album.id = true) := by simp [hsync]
  have hok := writeAlbumTracks_all_ok env hw
  have hfiltlen : (details.song.filter (dlOk env)).length = n - 1 := by
    have hsum := countP_not_add (dlOk env) details.song
    rw [List.countP_eq_length_filter] at hsum
    omega
  have hPlen : (process_tracks env (albumDownloaded env album details)
      (albumCover env album)).length = n - 1 := by
    rw [process_tracks_length]
    have := albumDownloaded_map_song env album details
    have hlen := congrArg List.length this
    simpa [hfiltlen] using hlen
  have hPtitles : (process_tracks env (albumDownloaded env album details)
      (albumCover env album)).map (fun t => t.song.title) =
      (details.song.filter (dlOk env)).map (fun s => s.title) := by
    have h1 := process_tracks_map_song env (albumDownloaded env album details)
      (albumCover env album)
    have h2 := albumDownloaded_map_song env album details
    have : (process_tracks env (albumDownloaded env album details)
        (albumCover env album)).map (fun t => t.song) = details.song.filter (dlOk env) :=
      h1.trans h2
    have := congrArg (List.map (fun s : Song => s.title)) this
    simpa [List.map_map] using this
  refine ⟨⟨albumBytes (process_tracks env (albumDownloaded env album details)
      (albumCover env album)), ?_⟩, ?_, ?_, ?_⟩
  · simp only [sync_album_with_progress, hsync, Bool.false_eq_true, if_false, hga, hok]
    simp [hPlen]
  · simp only [sync_album_with_progress, hsync, Bool.false_eq_true, if_false, hga, hok]
    simp only [List.countP_append, writeOps_count, (coverWrites_trivia env album).1]
    simp [hPlen]
  · simp only [sync_album_with_progress, hsync, Bool.false_eq_true, if_false, hga, hok]
    simp only [List.filterMap_append, writeOps_titles, (coverWrites_trivia env album).2]
    simp [hPtitles]
  · refine ⟨{ id := album.id, artist := album.artist.getD "Unknown Artist",
              album := album.name,
              track_count := (process_tracks env (albumDownloaded env album details)
                  (albumCover env album)).length,
              synced_at := now }, ?_, rfl, hPlen⟩
    simp only [sync_album_with_progress, hsync, Bool.false_eq_true, if_false, hga, hok]
    simp [SyncManifest.add_album]

/-- Witness for C3: a ten-track album whose track `t05` fails to download
completes with nine tracks and a manifest record with `track_count = 9`. -/
theorem partial_failure_isolation_witness :
    (∃ bytes, (sync_album_with_progress env3 manifest0 album3 5).result = .ok (9, bytes)) ∧
    (∃ r ∈ (sync_album_with_progress env3 manifest0 album3 5).manifest.synced_albums,
        r.id = album3.id ∧ r.track_count = 9) := by
  have h := partial_failure_isolation env3 manifest0 album3 5
    (mkDetails "al3" "Y" (some "Art") songs10) 10 rfl rfl (by decide)
    (by decide) (fun _ _ _ _ _ _ => rfl)
  exact ⟨h.1, h.2.2.2⟩

/-! ## C9: a zero-track unit is reported skipped yet marked synced -/

/-- C9: an album unit whose pipeline yields zero processed tracks (here:
every download fails) returns ok with zero tracks, still upserts its
manifest record with `track_count = 0`, the orchestrator emits
`AlbumSkipped` (never `AlbumCompleted`) without counting it, and every
subsequent attempt hits the manifest and skips. -/
theorem zero_track_unit_skipped_but_synced (env : Env) (m : SyncManifest) (album : Album)
    (now later : Nat) (acc : RunAcc) (details : AlbumWithSongs)
    (hsync : m.is_album_synced album.id = false)
    (hga : env.getAlbum album.id = .ok details)
    (hfail : ∀ s ∈ details.song, dlOk env s = false)
    (hacc : acc.manifest = m) :
    (sync_album_with_progress env m album now).result = .ok (0, 0) ∧
    (sync_album_with_progress env m album now).manifest =
      m.add_album { id := album.id, artist := album.artist.getD "Unknown Artist",
                    album := album.name, track_count := 0, synced_at := now } now ∧
    (sync_album_with_progress env m album now).manifest.is_album_synced album.id = true ∧
    (albumStep env now acc album).result = acc.result ∧
    (albumStep env now acc album).events = acc.events ++
      ((sync_album_with_progress env m album now).events ++
        [SyncProgress.AlbumSkipped (album.artist.getD "Unknown Artist") album.name]) ∧
    SyncProgress.AlbumCompleted (album.artist.getD "Unknown Artist") album.name ∉
      ((sync_album_with_progress env m album now).events ++
        [SyncProgress.AlbumSkipped (album.artist.getD "Unknown Artist") album.name]) ∧
    sync_album_with_progress env ((sync_album_with_progress env m album now).manifest)
        album later =
      { result := .ok (0, 0),
        manifest := (sync_album_with_progress env m album now).manifest,
        events := [], net := [], writes := [] } := by
  have hempty : (downloadAlbumTracks env details.song).2 = [] := by
    rw [downloadAlbumTracks_snd]
    have : details.song.filter (dlOk env) = [] :=
      List.filter_eq_nil_iff.mpr (by intro s hs; simp [hfail s hs])
    simp [this]
  have hdl : albumDownloaded env album details = [] := by
    simp [albumDownloaded, hempty]
  have hP : process_tracks env (albumDownloaded env album details) (albumCover env album) = [] := by
    simp [hdl, process_tracks]
  have hres : (sync_album_with_progress env m album now).result = .ok (0, 0) := by
    simp [sync_album_with_progress, hsync, hga, hP, writeAlbumTracks]
  have hmani : (sync_album_with_progress env m album now).manifest =
      m.add_album { id := album.id, artist := album.artist.getD "Unknown Artist",
                    album := album.name, track_count := 0, synced_at := now } now := by
    simp [sync_album_with_progress, hsync, hga, hP, writeAlbumTracks]
  have hsynced : (sync_album_with_progress env m album now).manifest.is_album_synced
      album.id = true := by
    rw [hmani]
    simp [SyncManifest.add_album, SyncManifest.is_album_synced]
  refine ⟨hres, hmani, hsynced, ?_, ?_, ?_, ?_⟩
  · simp only [albumStep, hacc, hres]
    simp
  · simp only [albumStep, hacc, hres]
    simp
  · have hev : (sync_album_with_progress env m album now).events =
        [SyncProgress.AlbumStarted (album.artist.getD "Unknown Artist") album.name
           details.song.length,
         SyncProgress.TrackCompleted 0 details.song.length] := by
      simp [sync_album_with_progress, hsync, hga, hP, writeAlbumTracks, hempty]
    rw [hev]
    simp
  · exact sync_album_skip env _ album later hsynced

/-- Witness for C9: a two-track album whose downloads all fail is recorded
with `track_count = 0` and skipped by the orchestrator. -/
theorem zero_track_unit_skipped_but_synced_witness :
    (sync_album_with_progress env9 manifest0 album9 0).result = .ok (0, 0) ∧
    (sync_album_with_progress env9 manifest0 album9 0).manifest.is_album_synced "al9" = true ∧
    (albumStep env9 0 acc9 album9).result = acc9.result := by
  have hfail : ∀ s ∈ (mkDetails "al9" "W" (some "Art")
      [mkSong "t91" "T91", mkSong "t92" "T92"]).song, dlOk env9 s = false := by
    intro s hs
    simp only [mkDetails, List.mem_cons, List.not_mem_nil, or_false] at hs
    rcases hs with rfl | rfl <;> rfl
  have h := zero_track_unit_skipped_but_synced env9 manifest0 album9 0 1 acc9
    (mkDetails "al9" "W" (some "Art") [mkSong "t91" "T91", mkSong "t92" "T92"])
    rfl rfl hfail rfl
  exact ⟨h.1, h.2.2.1, h.2.2.2.1⟩

/-! ## Helper lemmas: idempotence bookkeeping -/

theorem is_album_synced_iff (m : SyncManifest) (id : String) :
    m.is_album_synced id = true ↔ id ∈ m.albumIds := by
  simp [SyncManifest.is_album_synced, SyncManifest.albumIds, List.any_eq_true]

theorem is_playlist_synced_iff (m : SyncManifest) (id : String) :
    m.is_playlist_synced id = true ↔ id ∈ m.playlistIds := by
  simp [SyncManifest.is_playlist_synced, SyncManifest.playlistIds, List.any_eq_true]

theorem mem_albumIds_add_album_self (m : SyncManifest) (r : SyncedAlbum) (n : Nat) :
    r.id ∈ (m.add_album r n).albumIds := by
  simp [SyncManifest.add_album, SyncManifest.albumIds]

theorem mem_albumIds_add_album (m : SyncManifest) (r : SyncedAlbum) (n : Nat) (id : String)
    (h : id ∈ m.albumIds) : id ∈ (m.add_album r n).albumIds := by
  by_cases hid : id = r.id
  · rw [hid]; exact mem_albumIds_add_album_self m r n
  · simp only [SyncManifest.add_album, SyncManifest.albumIds, List.map_append, List.mem_append]
    left
    simp only [SyncManifest.albumIds, List.mem_map] at h
    obtain ⟨a, ha, rfl⟩ := h
    exact List.mem_map.mpr ⟨a, List.mem_filter.mpr ⟨ha, by simpa [bne_iff_ne] using hid⟩, rfl⟩

theorem mem_playlistIds_add_playlist_self (m : SyncManifest) (r : SyncedPlaylist) (n : Nat) :
    r.id ∈ (m.add_playlist r n).playlistIds := by
  simp [SyncManifest.add_playlist, SyncManifest.playlistIds]

theorem mem_playlistIds_add_playlist (m : SyncManifest) (r : SyncedPlaylist) (n : Nat)
    (id : String) (h : id ∈ m.playlistIds) : id ∈ (m.add_playlist r n).playlistIds := by
  by_cases hid : id = r.id
  · rw [hid]; exact mem_playlistIds_add_playlist_self m r n
  · simp only [SyncManifest.add_playlist, SyncManifest.playlistIds, List.map_append,
      List.mem_append]
    left
    simp only [SyncManifest.playlistIds, List.mem_map] at h
    obtain ⟨p, hp, rfl⟩ := h
    exact List.mem_map.mpr ⟨p, List.mem_filter.mpr ⟨hp, by simpa [bne_iff_ne] using hid⟩, rfl⟩

/-- Master case analysis of one playlist unit. -/
theorem sync_playlist_spec (env : Env) (m : SyncManifest) (playlist : Playlist) (now : Nat) :
    (m.is_playlist_synced playlist.id = true ∧
     sync_playlist_with_progress env m playlist now =
       { result := .ok (0, 0), manifest := m, events := [], net := [], writes := [] }) ∨
    (m.is_playlist_synced playlist.id = false ∧
     ((∃ e, (sync_playlist_with_progress env m playlist now).result = .error e ∧
            (sync_playlist_with_progress env m playlist now).manifest = m) ∨
      (∃ tc bytes, (sync_playlist_with_progress env m playlist now).result = .ok (tc, bytes) ∧
            (sync_playlist_with_progress env m playlist now).manifest =
              m.add_playlist { id := playlist.id, name := playlist.name,
                               track_count := tc, synced_at := now } now))) := by
  by_cases hsync : m.is_playlist_synced playlist.id
  · exact Or.inl ⟨hsync, sync_playlist_skip env m playlist now hsync⟩
  · refine Or.inr ⟨by simpa using hsync, ?_⟩
    cases hgp : env.getPlaylist playlist.id with
    | error e =>
      refine Or.inl ⟨e, ?_, ?_⟩ <;> simp [sync_playlist_with_progress, hsync, hgp]
    | ok details =>
      cases hw : (writePlaylistTracks env playlist.name (processPlaylistTracks env
          (buildCoverCache env (downloadPlaylistTracks env details.songs).2)
          (downloadPlaylistTracks env details.songs).2)).2 with
      | error e =>
        refine Or.inl ⟨e, ?_, ?_⟩ <;> simp [sync_playlist_with_progress, hsync, hgp, hw]
      | ok fb =>
        cases hm3u : env.writeM3u playlist.name fb.1 with
        | error e =>
          refine Or.inl ⟨e, ?_, ?_⟩ <;>
            simp [sync_playlist_with_progress, hsync, hgp, hw, hm3u]
        | ok u =>
          refine Or.inr ⟨fb.1.length, fb.2, ?_, ?_⟩ <;>
            simp [sync_playlist_with_progress, hsync, hgp, hw, hm3u]

theorem sync_album_ok_mem (env : Env) (m : SyncManifest) (album : Album) (now : Nat)
    (tb : Nat × Nat) (h : (sync_album_with_progress env m album now).result = .ok tb) :
    album.id ∈ (sync_album_with_progress env m album now).manifest.albumIds := by
  rcases sync_album_spec env m album now with ⟨hs, heq⟩ | ⟨hs, ⟨e, herr, _⟩ | ⟨tc, bytes, _, hm, _⟩⟩
  · rw [heq]
    exact (is_album_synced_iff m album.id).mp hs
  · rw [herr] at h; cases h
  · rw [hm]
    exact mem_albumIds_add_album_self m _ now

theorem sync_playlist_ok_mem (env : Env) (m : SyncManifest) (playlist : Playlist) (now : Nat)
    (tb : Nat × Nat) (h : (sync_playlist_with_progress env m playlist now).result = .ok tb) :
    playlist.id ∈ (sync_playlist_with_progress env m playlist now).manifest.playlistIds := by
  rcases sync_playlist_spec env m playlist now with ⟨hs, heq⟩ | ⟨hs, ⟨e, herr, _⟩ | ⟨tc, bytes, _, hm⟩⟩
  · rw [heq]
    exact (is_playlist_synced_iff m playlist.id).mp hs
  · rw [herr] at h; cases h
  · rw [hm]
    exact mem_playlistIds_add_playlist_self m _ now

theorem sync_album_albumIds_mono (env : Env) (m : SyncManifest) (album : Album) (now : Nat)
    (id : String) (h : id ∈ m.albumIds) :
    id ∈ (sync_album_with_progress env m album now).manifest.albumIds := by
  rcases sync_album_spec env m album now with ⟨_, heq⟩ | ⟨_, ⟨e, _, hm⟩ | ⟨tc, bytes, _, hm, _⟩⟩
  · rw [heq]; exact h
  · rw [hm]; exact h
  · rw [hm]; exact mem_albumIds_add_album m _ now id h

theorem sync_playlist_playlistIds_mono (env : Env) (m : SyncManifest) (playlist : Playlist)
    (now : Nat) (id : String) (h : id ∈ m.playlistIds) :
    id ∈ (sync_playlist_with_progress env m playlist now).manifest.playlistIds := by
  rcases sync_playlist_spec env m playlist now with ⟨_, heq⟩ | ⟨_, ⟨e, _, hm⟩ | ⟨tc, bytes, _, hm⟩⟩
  · rw [heq]; exact h
  · rw [hm]; exact h
  · rw [hm]; exact mem_playlistIds_add_playlist m _ now id h

theorem sync_playlist_synced_albums (env : Env) (m : SyncManifest) (playlist : Playlist)
    (now : Nat) :
    (sync_playlist_with_progress env m playlist now).manifest.synced_albums =
      m.synced_albums := by
  rcases sync_playlist_spec env m playlist now with ⟨_, heq⟩ | ⟨_, ⟨e, _, hm⟩ | ⟨tc, bytes, _, hm⟩⟩
  · rw [heq]
  · rw [hm]
  · rw [hm]; rfl

theorem albumStep_manifest (env : Env) (now : Nat) (acc : RunAcc) (album : Album) :
    (albumStep env now acc album).manifest =
      (sync_album_with_progress env acc.manifest album now).manifest := by
  simp only [albumStep]
  cases (sync_album_with_progress env acc.manifest album now).result with
  | ok tb => by_cases htb : tb.1 > 0 <;> simp [htb]
  | error e => simp

theorem playlistStep_manifest (env : Env) (now : Nat) (acc : RunAcc) (playlist : Playlist) :
    (playlistStep env now acc playlist).manifest =
      (sync_playlist_with_progress env acc.manifest playlist now).manifest := by
  simp only [playlistStep]
  cases (sync_playlist_with_progress env acc.manifest playlist now).result with
  | ok tb => by_cases htb : tb.1 > 0 <;> simp [htb]
  | error e => simp

theorem sync_album_events_no_error (env : Env) (m : SyncManifest) (album : Album) (now : Nat) :
    errCount (sync_album_with_progress env m album now).events = 0 := by
  by_cases hsync : m.is_album_synced album.id
  · rw [sync_album_skip env m album now hsync]; rfl
  · cases hga : env.getAlbum album.id with
    | error e => simp [sync_album_with_progress, hsync, hga, errCount, isErrorEvent]
    | ok details =>
      cases hwres : (writeAlbumTracks env (process_tracks env
          (albumDownloaded env album details) (albumCover env album))).2 with
      | error e =>
        simp [sync_album_with_progress, hsync, hga, hwres, errCount, isErrorEvent]
      | ok total_bytes =>
        simp [sync_album_with_progress, hsync, hga, hwres, errCount, isErrorEvent]

theorem sync_playlist_events_no_error (env : Env) (m : SyncManifest) (playlist : Playlist)
    (now : Nat) :
    errCount (sync_playlist_with_progress env m playlist now).events = 0 := by
  by_cases hsync : m.is_playlist_synced playlist.id
  · rw [sync_playlist_skip env m playlist now hsync]; rfl
  · cases hgp : env.getPlaylist playlist.id with
    | error e => simp [sync_playlist_with_progress, hsync, hgp, errCount, isErrorEvent]
    | ok details =>
      cases hw : (writePlaylistTracks env playlist.name (processPlaylistTracks env
          (buildCoverCache env (downloadPlaylistTracks env details.songs).2)
          (downloadPlaylistTracks env details.songs).2)).2 with
      | error e =>
        simp [sync_playlist_with_progress, hsync, hgp, hw, errCount, isErrorEvent]
      | ok fb =>
        cases hm3u : env.writeM3u playlist.name fb.1 with
        | error e =>
          simp [sync_playlist_with_progress, hsync, hgp, hw, hm3u, errCount, isErrorEvent]
        | ok u =>
          simp [sync_playlist_with_progress, hsync, hgp, hw, hm3u, errCount, isErrorEvent]

theorem albumStep_errCount (env : Env) (now : Nat) (acc : RunAcc) (album : Album) :
    errCount (albumStep env now acc album).events =
      errCount acc.events +
        (match (sync_album_with_progress env acc.manifest album now).result with
         | .ok _ => 0
         | .error _ => 1) := by
  have hu := sync_album_events_no_error env acc.manifest album now
  simp only [albumStep]
  cases (sync_album_with_progress env acc.manifest album now).result with
  | ok tb =>
    by_cases htb : tb.1 > 0 <;>
      simp [htb, errCount, List.countP_append, isErrorEvent] <;>
      simpa [errCount] using hu
  | error e =>
    simp [errCount, List.countP_append, isErrorEvent]
    simpa [errCount] using hu

theorem playlistStep_errCount (env : Env) (now : Nat) (acc : RunAcc) (playlist : Playlist) :
    errCount (playlistStep env now acc playlist).events =
      errCount acc.events +
        (match (sync_playlist_with_progress env acc.manifest playlist now).result with
         | .ok _ => 0
         | .error _ => 1) := by
  have hu := sync_playlist_events_no_error env acc.manifest playlist now
  simp only [playlistStep]
  cases (sync_playlist_with_progress env acc.manifest playlist now).result with
  | ok tb =>
    by_cases htb : tb.1 > 0 <;>
      simp [htb, errCount, List.countP_append, isErrorEvent] <;>
      simpa [errCount] using hu
  | error e =>
    simp [errCount, List.countP_append, isErrorEvent]
    simpa [errCount] using hu

theorem albumStep_albumIds_mono (env : Env) (now : Nat) (acc : RunAcc) (album : Album)
    (id : String) (h : id ∈ acc.manifest.albumIds) :
    id ∈ (albumStep env now acc album).manifest.albumIds := by
  rw [albumStep_manifest]
  exact sync_album_albumIds_mono env acc.manifest album now id h

theorem playlistStep_playlistIds_mono (env : Env) (now : Nat) (acc : RunAcc)
    (playlist : Playlist) (id : String) (h : id ∈ acc.manifest.playlistIds) :
    id ∈ (playlistStep env now acc playlist).manifest.playlistIds := by
  rw [playlistStep_manifest]
  exact sync_playlist_playlistIds_mono env acc.manifest playlist now id h

theorem syncAlbumsGo_albumIds_mono (env : Env) (now : Nat) :
    ∀ (albums : List Album) (acc : RunAcc) (id : String),
      id ∈ acc.manifest.albumIds → id ∈ (syncAlbumsGo env now albums acc).manifest.albumIds
  | [], _, _, h => h
  | a :: rest, acc, id, h =>
    syncAlbumsGo_albumIds_mono env now rest (albumStep env now acc a) id
      (albumStep_albumIds_mono env now acc a id h)

theorem syncPlaylistsGo_playlistIds_mono (env : Env) (now : Nat) :
    ∀ (playlists : List Playlist) (acc : RunAcc) (id : String),
      id ∈ acc.manifest.playlistIds →
      id ∈ (syncPlaylistsGo env now playlists acc).manifest.playlistIds
  | [], _, _, h => h
  | p :: rest, acc, id, h =>
    syncPlaylistsGo_playlistIds_mono env now rest (playlistStep env now acc p) id
      (playlistStep_playlistIds_mono env now acc p id h)

theorem syncAlbumsGo_errCount_le (env : Env) (now : Nat) :
    ∀ (albums : List Album) (acc : RunAcc),
      errCount acc.events ≤ errCount (syncAlbumsGo env now albums acc).events
  | [], _ => le_refl _
  | a :: rest, acc => by
    have h1 := albumStep_errCount env now acc a
    have h2 := syncAlbumsGo_errCount_le env now rest (albumStep env now acc a)
    simp only [syncAlbumsGo]
    omega

theorem syncPlaylistsGo_errCount_le (env : Env) (now : Nat) :
    ∀ (playlists : List Playlist) (acc : RunAcc),
      errCount acc.events ≤ errCount (syncPlaylistsGo env now playlists acc).events
  | [], _ => le_refl _
  | p :: rest, acc => by
    have h1 := playlistStep_errCount env now acc p
    have h2 := syncPlaylistsGo_errCount_le env now rest (playlistStep env now acc p)
    simp only [syncPlaylistsGo]
    omega

theorem syncAlbumsGo_no_err_mem (env : Env) (now : Nat) :
    ∀ (albums : List Album) (acc : RunAcc),
      errCount (syncAlbumsGo env now albums acc).events = errCount acc.events →
      ∀ a ∈ albums, a.id ∈ (syncAlbumsGo env now albums acc).manifest.albumIds
  | [], _, _, a, ha => absurd ha (List.not_mem_nil a)
  | b :: rest, acc, h, a, ha => by
    have hstep := albumStep_errCount env now acc b
    have hle := syncAlbumsGo_errCount_le env now rest (albumStep env now acc b)
    simp only [syncAlbumsGo] at h ⊢
    have heq1 : errCount (albumStep env now acc b).events = errCount acc.events := by omega
    have hok : ∃ tb, (sync_album_with_progress env acc.manifest b now).result = .ok tb := by
      cases ho : (sync_album_with_progress env acc.manifest b now).result with
      | ok tb => exact ⟨tb, rfl⟩
      | error e => rw [ho] at hstep; simp at hstep; omega
    obtain ⟨tb, htb⟩ := hok
    rcases List.mem_cons.mp ha with rfl | hmem
    · have hb : a.id ∈ (albumStep env now acc a).manifest.albumIds := by
        rw [albumStep_manifest]
        exact sync_album_ok_mem env acc.manifest a now tb htb
      exact syncAlbumsGo_albumIds_mono env now rest _ a.id hb
    · exact syncAlbumsGo_no_err_mem env now rest (albumStep env now acc b)
        (by omega) a hmem

theorem syncPlaylistsGo_no_err_mem (env : Env) (now : Nat) :
    ∀ (playlists : List Playlist) (acc : RunAcc),
      errCount (syncPlaylistsGo env now playlists acc).events = errCount acc.events →
      ∀ p ∈ playlists, p.id ∈ (syncPlaylistsGo env now playlists acc).manifest.playlistIds
  | [], _, _, p, hp => absurd hp (List.not_mem_nil p)
  | q :: rest, acc, h, p, hp => by
    have hstep := playlistStep_errCount env now acc q
    have hle := syncPlaylistsGo_errCount_le env now rest (playlistStep env now acc q)
    simp only [syncPlaylistsGo] at h ⊢
    have heq1 : errCount (playlistStep env now acc q).events = errCount acc.events := by omega
    have hok : ∃ tb, (sync_playlist_with_progress env acc.manifest q now).result = .ok tb := by
      cases ho : (sync_playlist_with_progress env acc.manifest q now).result with
      | ok tb => exact ⟨tb, rfl⟩
      | error e => rw [ho] at hstep; simp at hstep; omega
    obtain ⟨tb, htb⟩ := hok
    rcases List.mem_cons.mp hp with rfl | hmem
    · have hq : p.id ∈ (playlistStep env now acc p).manifest.playlistIds := by
        rw [playlistStep_manifest]
        exact sync_playlist_ok_mem env acc.manifest p now tb htb
      exact syncPlaylistsGo_playlistIds_mono env now rest _ p.id hq
    · exact syncPlaylistsGo_no_err_mem env now rest (playlistStep env now acc q)
        (by omega) p hmem

theorem syncPlaylistsGo_synced_albums (env : Env) (now : Nat) :
    ∀ (playlists : List Playlist) (acc : RunAcc),
      (syncPlaylistsGo env now playlists acc).manifest.synced_albums =
        acc.manifest.synced_albums
  | [], _ => rfl
  | p :: rest, acc => by
    have ih := syncPlaylistsGo_synced_albums env now rest (playlistStep env now acc p)
    simp only [syncPlaylistsGo]
    rw [ih, playlistStep_manifest, sync_playlist_synced_albums]

theorem syncAlbumsGo_all_skip (env : Env) (now : Nat) :
    ∀ (albums : List Album) (acc : RunAcc),
      (∀ a ∈ albums, acc.manifest.is_album_synced a.id = true) →
      (syncAlbumsGo env now albums acc).result = acc.result ∧
      (syncAlbumsGo env now albums acc).manifest = acc.manifest ∧
      (syncAlbumsGo env now albums acc).net = acc.net ∧
      (syncAlbumsGo env now albums acc).writes = acc.writes
  | [], acc, _ => ⟨rfl, rfl, rfl, rfl⟩
  | a :: rest, acc, h => by
    have hstep : albumStep env now acc a =
        { acc with events := acc.events ++
            [SyncProgress.AlbumSkipped (a.artist.getD "Unknown Artist") a.name] } := by
      simp [albumStep, sync_album_skip env acc.manifest a now (h a (List.mem_cons_self a rest))]
    simp only [syncAlbumsGo]
    rw [hstep]
    exact syncAlbumsGo_all_skip env now rest _
      (fun a' ha' => h a' (List.mem_cons_of_mem a ha'))

theorem syncPlaylistsGo_all_skip (env : Env) (now : Nat) :
    ∀ (playlists : List Playlist) (acc : RunAcc),
      (∀ p ∈ playlists, acc.manifest.is_playlist_synced p.id = true) →
      (syncPlaylistsGo env now playlists acc).result = acc.result ∧
      (syncPlaylistsGo env now playlists acc).manifest = acc.manifest ∧
      (syncPlaylistsGo env now playlists acc).net = acc.net ∧
      (syncPlaylistsGo env now playlists acc).writes = acc.writes
  | [], acc, _ => ⟨rfl, rfl, rfl, rfl⟩
  | p :: rest, acc, h => by
    have hstep : playlistStep env now acc p =
        { acc with events := acc.events ++ [SyncProgress.PlaylistSkipped p.name] } := by
      simp [playlistStep,
        sync_playlist_skip env acc.manifest p now (h p (List.mem_cons_self p rest))]
    simp only [syncPlaylistsGo]
    rw [hstep]
    exact syncPlaylistsGo_all_skip env now rest _
      (fun p' hp' => h p' (List.mem_cons_of_mem p hp'))

/-- Evaluation of a whole `sync_with_progress` run, split on the final
manifest save. -/
theorem sync_with_progress_cases (env : Env) (m : SyncManifest) (sel : SyncSelection)
    (d : DeletionSelection) (now : Nat) (A : RunAcc)
    (hinit : env.initStorage = .ok ())
    (hA : A = syncPlaylistsGo env now sel.playlists (syncAlbumsGo env now sel.albums
      { result := {}, manifest := (delete_deselected env m d).manifest
        events := (delete_deselected env m d).events ++
          [SyncProgress.Started sel.albums.length sel.playlists.length]
        net := [], writes := [] })) :
    (∃ e, env.saveManifest A.manifest = .error e ∧
      sync_with_progress env m sel d now =
        { result := .error e, manifest := A.manifest, events := A.events,
          net := A.net, writes := A.writes }) ∨
    (env.saveManifest A.manifest = .ok () ∧
      sync_with_progress env m sel d now =
        { result := .ok A.result, manifest := A.manifest
          events := A.events ++ [SyncProgress.Complete A.result.albums_synced
            A.result.playlists_synced A.result.tracks_downloaded A.result.bytes_downloaded
            (delete_deselected env m d).albums_deleted
            (delete_deselected env m d).playlists_deleted]
          net := A.net, writes := A.writes }) := by
  subst hA
  cases hsv : env.saveManifest (syncPlaylistsGo env now sel.playlists
      (syncAlbumsGo env now sel.albums
        { result := {}, manifest := (delete_deselected env m d).manifest
          events := (delete_deselected env m d).events ++
            [SyncProgress.Started sel.albums.length sel.playlists.length]
          net := [], writes := [] })).manifest with
  | error e =>
    left
    exact ⟨e, rfl, by simp [sync_with_progress, hinit, hsv]⟩
  | ok u =>
    right
    cases u
    exact ⟨rfl, by simp [sync_with_progress, hinit, hsv]⟩

/-- A run over a manifest that already records every selected unit skips
everything: zero counts, no network calls, no writes, manifest unchanged. -/
theorem sync_with_progress_all_synced (env : Env) (m : SyncManifest)
    (selection : SyncSelection) (now : Nat)
    (hinit : env.initStorage = .ok ())
    (hsave : env.saveManifest m = .ok ())
    (ha : ∀ a ∈ selection.albums, m.is_album_synced a.id = true)
    (hp : ∀ p ∈ selection.playlists, m.is_playlist_synced p.id = true) :
    (sync_with_progress env m selection { albums := [], playlists := [] } now).result =
      .ok { albums_synced := 0, playlists_synced := 0, tracks_downloaded := 0,
            bytes_downloaded := 0 } ∧
    (sync_with_progress env m selection { albums := [], playlists := [] } now).manifest = m ∧
    (sync_with_progress env m selection { albums := [], playlists := [] } now).net = [] ∧
    (sync_with_progress env m selection { albums := [], playlists := [] } now).writes = [] := by
  have hdel : delete_deselected env m { albums := [], playlists := [] } =
      { albums_deleted := 0, playlists_deleted := 0, manifest := m, events := [] } := rfl
  have hskipA := syncAlbumsGo_all_skip env now selection.albums
    { result := {}, manifest := m
      events := ([] : List SyncProgress) ++
        [SyncProgress.Started selection.albums.length selection.playlists.length]
      net := [], writes := [] } ha
  obtain ⟨hr1, hm1, hn1, hw1⟩ := hskipA
  have hskipP := syncPlaylistsGo_all_skip env now selection.playlists
    (syncAlbumsGo env now selection.albums
      { result := {}, manifest := m
        events := ([] : List SyncProgress) ++
          [SyncProgress.Started selection.albums.length selection.playlists.length]
        net := [], writes := [] })
    (fun p hp' => by rw [hm1]; exact hp p hp')
  obtain ⟨hr2, hm2, hn2, hw2⟩ := hskipP
  rcases sync_with_progress_cases env m selection { albums := [], playlists := [] } now _
      hinit rfl with ⟨e, hsv, heq⟩ | ⟨hsv, heq⟩
  · exfalso
    simp only [hdel] at hsv
    rw [hm2, hm1] at hsv
    rw [hsave] at hsv
    cases hsv
  · simp only [hdel] at heq
    rw [heq]
    refine ⟨?_, ?_, ?_, ?_⟩
    · simp only [hr2, hr1]
    · simp only [hm2, hm1]
    · simp only [hn2, hn1]
    · simp only [hw2, hw1]

/-! ## C2: sync is idempotent -/

/-- C2: if a run completes (result ok) with no per-unit `Error` events,
then every selected album and playlist id is recorded in the resulting
manifest, and a second run with the same selection against that manifest
skips every unit: it reports all-zero counts, performs no network calls and
no writes, and leaves the manifest unchanged. -/
theorem sync_idempotent (env : Env) (selection : SyncSelection) (m0 : SyncManifest)
    (deletions : DeletionSelection) (now1 now2 : Nat) (res1 : SyncResult)
    (h1 : (sync_with_progress env m0 selection deletions now1).result = .ok res1)
    (h2 : errCount (sync_with_progress env m0 selection deletions now1).events = 0) :
    (∀ a ∈ selection.albums,
      (sync_with_progress env m0 selection deletions now1).manifest.is_album_synced
        a.id = true) ∧
    (∀ p ∈ selection.playlists,
      (sync_with_progress env m0 selection deletions now1).manifest.is_playlist_synced
        p.id = true) ∧
    (sync_with_progress env (sync_with_progress env m0 selection deletions now1).manifest
        selection { albums := [], playlists := [] } now2).result =
      .ok { albums_synced := 0, playlists_synced := 0, tracks_downloaded := 0,
            bytes_downloaded := 0 } ∧
    (sync_with_progress env (sync_with_progress env m0 selection deletions now1).manifest
        selection { albums := [], playlists := [] } now2).manifest =
      (sync_with_progress env m0 selection deletions now1).manifest ∧
    (sync_with_progress env (sync_with_progress env m0 selection deletions now1).manifest
        selection { albums := [], playlists := [] } now2).net = [] ∧
    (sync_with_progress env (sync_with_progress env m0 selection deletions now1).manifest
        selection { albums := [], playlists := [] } now2).writes = [] := by
  cases hinit : env.initStorage with
  | error e =>
    exfalso
    simp [sync_with_progress, hinit] at h1
  | ok u =>
    cases u
    set A0 : RunAcc :=
      { result := {}, manifest := (delete_deselected env m0 deletions).manifest
        events := (delete_deselected env m0 deletions).events ++
          [SyncProgress.Started selection.albums.length selection.playlists.length]
        net := [], writes := [] } with hA0
    set A1 := syncAlbumsGo env now1 selection.albums A0 with hA1
    set A2 := syncPlaylistsGo env now1 selection.playlists A1 with hA2
    rcases sync_with_progress_cases env m0 selection deletions now1 A2 hinit
        (by rw [hA2, hA1, hA0]) with ⟨e, hsv, heq⟩ | ⟨hsv, heq⟩
    · rw [heq] at h1
      cases h1
    · have hm1 : (sync_with_progress env m0 selection deletions now1).manifest =
          A2.manifest := by rw [heq]
      have hA2err : errCount A2.events = 0 := by
        rw [heq] at h2
        simp only [errCount, List.countP_append] at h2
        simpa [errCount, isErrorEvent] using h2
      have hle01 : errCount A0.events ≤ errCount A1.events := by
        rw [hA1]; exact syncAlbumsGo_errCount_le env now1 selection.albums A0
      have hle12 : errCount A1.events ≤ errCount A2.events := by
        rw [hA2]; exact syncPlaylistsGo_errCount_le env now1 selection.playlists A1
      have halb1 : ∀ a ∈ selection.albums, a.id ∈ A1.manifest.albumIds := by
        rw [hA1]
        exact syncAlbumsGo_no_err_mem env now1 selection.albums A0 (by rw [← hA1]; omega)
      have hsynced_alb : A2.manifest.synced_albums = A1.manifest.synced_albums := by
        rw [hA2]
        exact syncPlaylistsGo_synced_albums env now1 selection.playlists A1
      have halb2 : ∀ a ∈ selection.albums, a.id ∈ A2.manifest.albumIds := by
        intro a ha
        have : A2.manifest.albumIds = A1.manifest.albumIds := by
          simp only [SyncManifest.albumIds, hsynced_alb]
        rw [this]
        exact halb1 a ha
      have hpl2 : ∀ p ∈ selection.playlists, p.id ∈ A2.manifest.playlistIds := by
        rw [hA2]
        exact syncPlaylistsGo_no_err_mem env now1 selection.playlists A1 (by rw [← hA2]; omega)
      have hsyncA : ∀ a ∈ selection.albums,
          (sync_with_progress env m0 selection deletions now1).manifest.is_album_synced
            a.id = true := by
        intro a ha
        rw [hm1]
        exact (is_album_synced_iff _ _).mpr (halb2 a ha)
      have hsyncP : ∀ p ∈ selection.playlists,
          (sync_with_progress env m0 selection deletions now1).manifest.is_playlist_synced
            p.id = true := by
        intro p hp
        rw [hm1]
        exact (is_playlist_synced_iff _ _).mpr (hpl2 p hp)
      have hrun2 := sync_with_progress_all_synced env A2.manifest selection now2 hinit hsv
        (fun a ha => by have := hsyncA a ha; rwa [hm1] at this)
        (fun p hp => by have := hsyncP p hp; rwa [hm1] at this)
      refine ⟨hsyncA, hsyncP, ?_, ?_, ?_, ?_⟩
      · rw [hm1]; exact hrun2.1
      · rw [hm1]; exact hrun2.2.1
      · rw [hm1]; exact hrun2.2.2.1
      · rw [hm1]; exact hrun2.2.2.2

/-- Witness for C2: a successful one-album, one-playlist run followed by a
second run with the same selection. -/
theorem sync_idempotent_witness :
    (sync_with_progress env2 (sync_with_progress env2 manifest0 selW
        { albums := [], playlists := [] } 0).manifest
      selW { albums := [], playlists := [] } 1).result =
      .ok { albums_synced := 0, playlists_synced := 0, tracks_downloaded := 0,
            bytes_downloaded := 0 } ∧
    (sync_with_progress env2 (sync_with_progress env2 manifest0 selW
        { albums := [], playlists := [] } 0).manifest
      selW { albums := [], playlists := [] } 1).writes = [] := by
  have h := sync_idempotent env2 selW manifest0 { albums := [], playlists := [] } 0 1
    { albums_synced := 1, playlists_synced := 1, tracks_downloaded := 2,
      bytes_downloaded := 2 } (by rfl) (by rfl)
  exact ⟨h.2.2.1, h.2.2.2.2.2⟩

end Nutune
